import Mathlib

/-!
Verification of the pricing/valuation engine of a mortgage CRM.

The development shallowly embeds the calculation core of the repository:
the Lambert-W based optimal refinancing threshold solver
(utils/optimal_threshold.py), the LLPA / rate pricing engine
(utils/rate_calculator.py and utils/llpa.py), and the amortization / ENPV
simulator (pages/other_tools.py).

Floating-point arithmetic on the ordinary calculation paths is idealized as exact
real (or rational) arithmetic.  For the error-handling claims about IEEE
special values, a dedicated type FP with fin/inf/ninf/nan constructors and
IEEE-style propagation rules is used.
-/

/-! ## Lambert W, principal real branch

scipy.special.lambertw with k = 0 on an argument in the real branch domain
is modelled by lambertW0 below: the unique w with -1 <= w and w * exp w = y,
for y >= -exp (-1).  Outside that domain the code takes the real part of a
complex value; only its finiteness ever matters in the claims, so lambertW0
returns an (irrelevant) default 0 there.
-/

open Classical in
noncomputable def lambertW0 (y : ℝ) : ℝ :=
  if h : ∃ w : ℝ, -1 ≤ w ∧ w * Real.exp w = y then h.choose else 0

lemma wexp_hasDerivAt (x : ℝ) :
    HasDerivAt (fun w : ℝ => w * Real.exp w) ((1 + x) * Real.exp x) x := by
  have h := (hasDerivAt_id x).mul (Real.hasDerivAt_exp x)
  convert h using 1
  simp only [id]
  ring

lemma wexp_continuous : Continuous (fun w : ℝ => w * Real.exp w) :=
  continuous_id.mul Real.continuous_exp

lemma wexp_strictMonoOn :
    StrictMonoOn (fun w : ℝ => w * Real.exp w) (Set.Ici (-1 : ℝ)) := by
  apply strictMonoOn_of_deriv_pos (convex_Ici _)
    wexp_continuous.continuousOn
  intro x hx
  rw [interior_Ici] at hx
  rw [(wexp_hasDerivAt x).deriv]
  have h1 : 0 < 1 + x := by
    have : (-1 : ℝ) < x := hx
    linarith
  exact mul_pos h1 (Real.exp_pos x)

lemma wexp_exists_of_mem (y : ℝ) (h1 : -Real.exp (-1) ≤ y) (h2 : y ≤ 0) :
    ∃ w : ℝ, -1 ≤ w ∧ w * Real.exp w = y := by
  have hle : (-1 : ℝ) ≤ 0 := by norm_num
  have hIcc := intermediate_value_Icc hle
    (wexp_continuous.continuousOn (s := Set.Icc (-1 : ℝ) 0))
  have hy : y ∈ Set.Icc ((fun w : ℝ => w * Real.exp w) (-1))
      ((fun w : ℝ => w * Real.exp w) 0) := by
    constructor
    · simpa using h1
    · simpa using h2
  obtain ⟨w, hw, hweq⟩ := hIcc hy
  exact ⟨w, hw.1, hweq⟩

lemma wexp_inj {w w' : ℝ} (hw : -1 ≤ w) (hw' : -1 ≤ w')
    (h : w * Real.exp w = w' * Real.exp w') : w = w' := by
  exact wexp_strictMonoOn.injOn hw hw' h

lemma lambertW0_spec {y : ℝ} (h1 : -Real.exp (-1) ≤ y) (h2 : y ≤ 0) :
    -1 ≤ lambertW0 y ∧ lambertW0 y * Real.exp (lambertW0 y) = y := by
  have hex := wexp_exists_of_mem y h1 h2
  rw [lambertW0, dif_pos hex]
  exact hex.choose_spec

lemma lambertW0_unique {y w : ℝ} (hw : -1 ≤ w) (hwe : w * Real.exp w = y) :
    lambertW0 y = w := by
  have hex : ∃ w' : ℝ, -1 ≤ w' ∧ w' * Real.exp w' = y := ⟨w, hw, hwe⟩
  rw [lambertW0, dif_pos hex]
  exact wexp_inj hex.choose_spec.1 hw (hex.choose_spec.2.trans hwe.symm)

lemma lambertW0_zero : lambertW0 0 = 0 :=
  lambertW0_unique (by norm_num) (by simp)

lemma lambertW0_neg_exp_neg_one : lambertW0 (-Real.exp (-1)) = -1 :=
  lambertW0_unique le_rfl (by ring)

lemma lambertW0_gt_neg_one {y : ℝ} (h1 : -Real.exp (-1) < y) (h2 : y ≤ 0) :
    -1 < lambertW0 y := by
  obtain ⟨hge, heq⟩ := lambertW0_spec h1.le h2
  rcases lt_or_eq_of_le hge with h | h
  · exact h
  · exfalso
    have : lambertW0 y * Real.exp (lambertW0 y) = -Real.exp (-1) := by
      rw [← h]; ring
    rw [this] at heq
    linarith

lemma lambertW0_strictMono {y y' : ℝ}
    (h1 : -Real.exp (-1) ≤ y) (h2 : y ≤ 0)
    (h1' : -Real.exp (-1) ≤ y') (h2' : y' ≤ 0) (hlt : y < y') :
    lambertW0 y < lambertW0 y' := by
  obtain ⟨hge, heq⟩ := lambertW0_spec h1 h2
  obtain ⟨hge', heq'⟩ := lambertW0_spec h1' h2'
  by_contra hcon
  push_neg at hcon
  rcases lt_or_eq_of_le hcon with h | h
  · have := wexp_strictMonoOn hge' hge h
    simp only at this
    rw [heq, heq'] at this
    linarith
  · rw [h] at heq'
    rw [heq] at heq'
    linarith

/-! ## ThresholdSolver (utils/optimal_threshold.py), real-number model

Each definition mirrors the corresponding python function, with numpy
float arithmetic idealized as exact real arithmetic.  np.real(lambertw(w_arg, 0))
is modelled by lambertW0.
-/

/-- calculate_lambda(mu, i0, Gamma, pi): mu + i0/(exp(i0*Gamma) - 1) + pi when
i0*Gamma < 100, else mu + pi. -/
noncomputable def calculate_lambda (mu i0 Gamma pi : ℝ) : ℝ :=
  if i0 * Gamma < 100 then mu + i0 / (Real.exp (i0 * Gamma) - 1) + pi
  else mu + pi

/-- calculate_kappa(M, points, fixed_cost, tau): fixed_cost + points * M. -/
noncomputable def calculate_kappa (M points fixed_cost _tau : ℝ) : ℝ :=
  fixed_cost + points * M

/-- calculate_optimal_threshold(M, rho, lambda_val, sigma, kappa, tau),
returning (x_star, psi, phi, C_M). -/
noncomputable def calculate_optimal_threshold (M rho lambda_val sigma kappa tau : ℝ) :
    ℝ × ℝ × ℝ × ℝ :=
  let psi := Real.sqrt (2 * (rho + lambda_val)) / sigma
  let C_M := kappa / (1 - tau)
  let phi := 1 + psi * (rho + lambda_val) * C_M / M
  let w_arg := -Real.exp (-phi)
  let w_val := lambertW0 w_arg
  let x_star := (1 / psi) * (phi + w_val)
  (x_star, psi, phi, C_M)

/-- calculate_square_root_approximation(M, rho, lambda_val, sigma, kappa, tau). -/
noncomputable def calculate_square_root_approximation
    (M rho lambda_val sigma kappa tau : ℝ) : ℝ :=
  -(sigma * Real.sqrt (kappa / (M * (1 - tau))) * Real.sqrt (2 * (rho + lambda_val)))

/-- calculate_npv_threshold(M, rho, lambda_val, kappa, tau). -/
noncomputable def calculate_npv_threshold (M rho lambda_val kappa tau : ℝ) : ℝ :=
  -(rho + lambda_val) * (kappa / (1 - tau)) / M

/-! Facts about the valid-domain regime: with 0 < M, 0 < sigma, 0 <= tau < 1,
0 < rho + lambda and 0 <= kappa, the solver has psi > 0, C_M >= 0, phi >= 1,
and the Lambert argument -exp(-phi) lies in the real branch domain. -/

section ThresholdFacts

variable {M rho lambda_val sigma kappa tau : ℝ}

lemma psi_pos (hσ : 0 < sigma) (hrl : 0 < rho + lambda_val) :
    0 < Real.sqrt (2 * (rho + lambda_val)) / sigma :=
  div_pos (Real.sqrt_pos.2 (by linarith)) hσ

lemma C_M_nonneg (hκ : 0 ≤ kappa) (hτ : tau < 1) : 0 ≤ kappa / (1 - tau) :=
  div_nonneg hκ (by linarith)

lemma phi_ge_one (hM : 0 < M) (hσ : 0 < sigma) (hτ : tau < 1)
    (hrl : 0 < rho + lambda_val) (hκ : 0 ≤ kappa) :
    1 ≤ 1 + (Real.sqrt (2 * (rho + lambda_val)) / sigma) * (rho + lambda_val) *
      (kappa / (1 - tau)) / M := by
  have h1 := psi_pos hσ hrl
  have h2 := C_M_nonneg hκ hτ
  have : 0 ≤ (Real.sqrt (2 * (rho + lambda_val)) / sigma) * (rho + lambda_val) *
      (kappa / (1 - tau)) / M :=
    div_nonneg (mul_nonneg (mul_nonneg h1.le hrl.le) h2) hM.le
  linarith

lemma phi_gt_one (hM : 0 < M) (hσ : 0 < sigma) (hτ : tau < 1)
    (hrl : 0 < rho + lambda_val) (hκ : 0 < kappa) :
    1 < 1 + (Real.sqrt (2 * (rho + lambda_val)) / sigma) * (rho + lambda_val) *
      (kappa / (1 - tau)) / M := by
  have h1 := psi_pos hσ hrl
  have h2 : 0 < kappa / (1 - tau) := div_pos hκ (by linarith)
  have : 0 < (Real.sqrt (2 * (rho + lambda_val)) / sigma) * (rho + lambda_val) *
      (kappa / (1 - tau)) / M :=
    div_pos (mul_pos (mul_pos h1 hrl) h2) hM
  linarith

/-- For phi >= 1 the Lambert argument -exp(-phi) is in [-exp(-1), 0). -/
lemma w_arg_mem {phi : ℝ} (hphi : 1 ≤ phi) :
    -Real.exp (-1) ≤ -Real.exp (-phi) ∧ -Real.exp (-phi) < 0 := by
  constructor
  · have : Real.exp (-phi) ≤ Real.exp (-1) := Real.exp_le_exp.2 (by linarith)
    linarith
  · have := Real.exp_pos (-phi)
    linarith

/-- For phi > 1 the Lambert argument is strictly inside the branch domain,
so the W value is strictly above -1. -/
lemma w_arg_mem_strict {phi : ℝ} (hphi : 1 < phi) :
    -Real.exp (-1) < -Real.exp (-phi) := by
  have : Real.exp (-phi) < Real.exp (-1) := Real.exp_lt_exp.2 (by linarith)
  linarith

end ThresholdFacts

/-- Projection of the solver output to its x_star component, written out. -/
lemma optimal_x_star_eq (M rho lambda_val sigma kappa tau : ℝ) :
    (calculate_optimal_threshold M rho lambda_val sigma kappa tau).1 =
      (1 / (Real.sqrt (2 * (rho + lambda_val)) / sigma)) *
        ((1 + (Real.sqrt (2 * (rho + lambda_val)) / sigma) * (rho + lambda_val) *
            (kappa / (1 - tau)) / M) +
          lambertW0 (-Real.exp
            (-(1 + (Real.sqrt (2 * (rho + lambda_val)) / sigma) * (rho + lambda_val) *
              (kappa / (1 - tau)) / M)))) := rfl

/-- The W value appearing in the solver is at least -1 whenever phi >= 1. -/
lemma w_val_ge_neg_one {phi : ℝ} (hphi : 1 ≤ phi) :
    -1 ≤ lambertW0 (-Real.exp (-phi)) :=
  (lambertW0_spec (w_arg_mem hphi).1 (w_arg_mem hphi).2.le).1

/-- The W value appearing in the solver is strictly above -1 whenever phi > 1. -/
lemma w_val_gt_neg_one {phi : ℝ} (hphi : 1 < phi) :
    -1 < lambertW0 (-Real.exp (-phi)) :=
  lambertW0_gt_neg_one (w_arg_mem_strict hphi) (w_arg_mem hphi.le).2.le

/-- In the valid regime the solver x_star is nonnegative. -/
lemma x_star_nonneg_core {psi phi : ℝ} (hψ : 0 < psi) (hphi : 1 ≤ phi) :
    0 ≤ (1 / psi) * (phi + lambertW0 (-Real.exp (-phi))) := by
  have hw := w_val_ge_neg_one hphi
  have h1 : 0 ≤ phi + lambertW0 (-Real.exp (-phi)) := by linarith
  have h2 : 0 ≤ 1 / psi := by positivity
  exact mul_nonneg h2 h1

/-! ## Claim C1 -/

/-- Claim C1: for inputs in the valid domain, calculate_optimal_threshold
returns the tuple (x_star, psi, phi, C_M) with psi = sqrt(2(rho+lambda))/sigma,
C_M = kappa/(1-tau), phi = 1 + psi (rho+lambda) C_M / M, and
x_star = (1/psi)(phi + w) where w is exactly the principal real branch value
of the Lambert-W function at -exp(-phi): the unique w >= -1 with
w exp w = -exp(-phi). -/
theorem C1_optimal_threshold_formula
    (M rho lambda_val sigma kappa tau : ℝ)
    (hM : 0 < M) (hσ : 0 < sigma) (hτ0 : 0 ≤ tau) (hτ : tau < 1)
    (hrl : 0 < rho + lambda_val) (hκ : 0 ≤ kappa) :
    ∃ w : ℝ,
      (-1 ≤ w ∧ w * Real.exp w =
        -Real.exp (-(1 + Real.sqrt (2 * (rho + lambda_val)) / sigma *
          (rho + lambda_val) * (kappa / (1 - tau)) / M))) ∧
      (∀ w' : ℝ, -1 ≤ w' →
        w' * Real.exp w' =
          -Real.exp (-(1 + Real.sqrt (2 * (rho + lambda_val)) / sigma *
            (rho + lambda_val) * (kappa / (1 - tau)) / M)) → w' = w) ∧
      calculate_optimal_threshold M rho lambda_val sigma kappa tau =
        ((1 / (Real.sqrt (2 * (rho + lambda_val)) / sigma)) *
          ((1 + Real.sqrt (2 * (rho + lambda_val)) / sigma *
            (rho + lambda_val) * (kappa / (1 - tau)) / M) + w),
         Real.sqrt (2 * (rho + lambda_val)) / sigma,
         1 + Real.sqrt (2 * (rho + lambda_val)) / sigma * (rho + lambda_val) *
           (kappa / (1 - tau)) / M,
         kappa / (1 - tau)) := by
  have hphi : 1 ≤ 1 + Real.sqrt (2 * (rho + lambda_val)) / sigma *
      (rho + lambda_val) * (kappa / (1 - tau)) / M :=
    phi_ge_one hM hσ hτ hrl hκ
  have hmem := w_arg_mem hphi
  have hspec := lambertW0_spec hmem.1 hmem.2.le
  refine ⟨lambertW0 (-Real.exp (-(1 + Real.sqrt (2 * (rho + lambda_val)) /
      sigma * (rho + lambda_val) * (kappa / (1 - tau)) / M))),
    ⟨hspec.1, hspec.2⟩, ?_, rfl⟩
  intro w' hw' hwe'
  exact (lambertW0_unique hw' hwe').symm

/-- Witness for C1 at M = 400000, rho = 1/20, lambda = 13/100,
sigma = 109/10000, kappa = 6000, tau = 7/25. -/
theorem C1_optimal_threshold_formula_witness :
    ∃ w : ℝ,
      (-1 ≤ w ∧ w * Real.exp w =
        -Real.exp (-(1 + Real.sqrt (2 * ((1:ℝ)/20 + 13/100)) / (109/10000) *
          ((1:ℝ)/20 + 13/100) * ((6000:ℝ) / (1 - 7/25)) / 400000))) ∧
      (∀ w' : ℝ, -1 ≤ w' →
        w' * Real.exp w' =
          -Real.exp (-(1 + Real.sqrt (2 * ((1:ℝ)/20 + 13/100)) / (109/10000) *
            ((1:ℝ)/20 + 13/100) * ((6000:ℝ) / (1 - 7/25)) / 400000)) →
          w' = w) ∧
      calculate_optimal_threshold 400000 (1/20) (13/100) (109/10000) 6000
          (7/25) =
        ((1 / (Real.sqrt (2 * ((1:ℝ)/20 + 13/100)) / (109/10000))) *
          ((1 + Real.sqrt (2 * ((1:ℝ)/20 + 13/100)) / (109/10000) *
            ((1:ℝ)/20 + 13/100) * ((6000:ℝ) / (1 - 7/25)) / 400000) + w),
         Real.sqrt (2 * ((1:ℝ)/20 + 13/100)) / (109/10000),
         1 + Real.sqrt (2 * ((1:ℝ)/20 + 13/100)) / (109/10000) *
           ((1:ℝ)/20 + 13/100) * ((6000:ℝ) / (1 - 7/25)) / 400000,
         (6000:ℝ) / (1 - 7/25)) :=
  C1_optimal_threshold_formula 400000 (1/20) (13/100) (109/10000) 6000 (7/25)
    (by norm_num) (by norm_num) (by norm_num) (by norm_num) (by norm_num)
    (by norm_num)

/-! ## Claim C2 -/

/-- Counterexample for C2 as stated: at M = 1, rho = 1, lambda = 0, sigma = 1,
kappa = 0, tau = 0 (a valid parameter set since the claim only requires
kappa >= 0), both the NPV threshold and the exact threshold are 0, so the
NPV threshold is not strictly smaller in magnitude than x_star. -/
theorem C2_counterexample :
    ¬ (|calculate_npv_threshold 1 1 0 0 0| <
       |(calculate_optimal_threshold 1 1 0 1 0 0).1|) := by
  have hnpv : calculate_npv_threshold 1 1 0 0 0 = 0 := by
    rw [calculate_npv_threshold]; norm_num
  have hx : (calculate_optimal_threshold 1 1 0 1 0 0).1 = 0 := by
    rw [optimal_x_star_eq]
    have h1 : (1:ℝ) + Real.sqrt (2 * (1 + 0)) / 1 * (1 + 0) * (0 / (1 - 0)) / 1
        = 1 := by norm_num
    rw [h1]
    rw [lambertW0_neg_exp_neg_one]
    ring
  rw [hnpv, hx]
  simp

/-- Core inequality: for p, M > 0, A >= 0 and any w >= -1,
A/M <= (1/p) ((1 + p A / M) + w); strict when w > -1 is given strictly. -/
lemma npv_le_xstar_core (p A M w : ℝ) (hp : 0 < p) (hM : 0 < M) (hA : 0 ≤ A)
    (hw : -1 ≤ w) :
    A / M ≤ (1 / p) * ((1 + p * A / M) + w) := by
  have h0 : A / M = (1 / p) * (p * A / M) := by
    field_simp
  rw [h0]
  apply mul_le_mul_of_nonneg_left _ (by positivity)
  linarith

lemma npv_lt_xstar_core (p A M w : ℝ) (hp : 0 < p) (hM : 0 < M) (hA : 0 ≤ A)
    (hw : -1 < w) :
    A / M < (1 / p) * ((1 + p * A / M) + w) := by
  have h0 : A / M = (1 / p) * (p * A / M) := by
    field_simp
  rw [h0]
  apply mul_lt_mul_of_pos_left _ (by positivity)
  linarith

/-- Claim C2 (amended): in the valid domain, the NPV threshold is never larger
in magnitude than x_star, and when kappa > 0 (rather than merely kappa >= 0,
where both thresholds are 0) it is strictly smaller in magnitude. -/
theorem C2_amended_npv_le_x_star
    (M rho lambda_val sigma kappa tau : ℝ)
    (hM : 0 < M) (hσ : 0 < sigma) (hτ0 : 0 ≤ tau) (hτ : tau < 1)
    (hrl : 0 < rho + lambda_val) :
    (0 ≤ kappa →
      |calculate_npv_threshold M rho lambda_val kappa tau| ≤
      |(calculate_optimal_threshold M rho lambda_val sigma kappa tau).1|) ∧
    (0 < kappa →
      |calculate_npv_threshold M rho lambda_val kappa tau| <
      |(calculate_optimal_threshold M rho lambda_val sigma kappa tau).1|) := by
  have hψ : 0 < Real.sqrt (2 * (rho + lambda_val)) / sigma := psi_pos hσ hrl
  constructor
  · intro hκ
    have hphi : 1 ≤ 1 + (Real.sqrt (2 * (rho + lambda_val)) / sigma) *
        (rho + lambda_val) * (kappa / (1 - tau)) / M := phi_ge_one hM hσ hτ hrl hκ
    have hC : 0 ≤ kappa / (1 - tau) := C_M_nonneg hκ hτ
    have hA : 0 ≤ (rho + lambda_val) * (kappa / (1 - tau)) := mul_nonneg hrl.le hC
    have hnpv_nonpos : calculate_npv_threshold M rho lambda_val kappa tau ≤ 0 := by
      rw [calculate_npv_threshold]
      have he : -(rho + lambda_val) * (kappa / (1 - tau)) / M =
          -((rho + lambda_val) * (kappa / (1 - tau)) / M) := by ring
      rw [he]
      have : 0 ≤ (rho + lambda_val) * (kappa / (1 - tau)) / M := div_nonneg hA hM.le
      linarith
    have hx_nonneg : 0 ≤ (calculate_optimal_threshold M rho lambda_val sigma kappa tau).1 := by
      rw [optimal_x_star_eq]
      exact x_star_nonneg_core hψ hphi
    rw [abs_of_nonpos hnpv_nonpos, abs_of_nonneg hx_nonneg,
      calculate_npv_threshold, optimal_x_star_eq]
    have hw := w_val_ge_neg_one hphi
    have core := npv_le_xstar_core (Real.sqrt (2 * (rho + lambda_val)) / sigma)
      ((rho + lambda_val) * (kappa / (1 - tau))) M
      (lambertW0 (-Real.exp
        (-(1 + (Real.sqrt (2 * (rho + lambda_val)) / sigma) * (rho + lambda_val) *
          (kappa / (1 - tau)) / M)))) hψ hM hA ?hw1
    case hw1 => exact hw
    have e1 : -(-(rho + lambda_val) * (kappa / (1 - tau)) / M) =
        (rho + lambda_val) * (kappa / (1 - tau)) / M := by ring
    have e2 : Real.sqrt (2 * (rho + lambda_val)) / sigma *
        ((rho + lambda_val) * (kappa / (1 - tau))) / M =
        Real.sqrt (2 * (rho + lambda_val)) / sigma * (rho + lambda_val) *
          (kappa / (1 - tau)) / M := by ring
    rw [e2] at core
    rw [e1]
    exact core
  · intro hκ
    have hphi : 1 < 1 + (Real.sqrt (2 * (rho + lambda_val)) / sigma) *
        (rho + lambda_val) * (kappa / (1 - tau)) / M := phi_gt_one hM hσ hτ hrl hκ
    have hC : 0 < kappa / (1 - tau) := div_pos hκ (by linarith)
    have hA : 0 ≤ (rho + lambda_val) * (kappa / (1 - tau)) :=
      mul_nonneg hrl.le hC.le
    have hnpv_nonpos : calculate_npv_threshold M rho lambda_val kappa tau ≤ 0 := by
      rw [calculate_npv_threshold]
      have he : -(rho + lambda_val) * (kappa / (1 - tau)) / M =
          -((rho + lambda_val) * (kappa / (1 - tau)) / M) := by ring
      rw [he]
      have : 0 ≤ (rho + lambda_val) * (kappa / (1 - tau)) / M := div_nonneg hA hM.le
      linarith
    have hx_nonneg : 0 ≤ (calculate_optimal_threshold M rho lambda_val sigma kappa tau).1 := by
      rw [optimal_x_star_eq]
      exact x_star_nonneg_core hψ hphi.le
    rw [abs_of_nonpos hnpv_nonpos, abs_of_nonneg hx_nonneg,
      calculate_npv_threshold, optimal_x_star_eq]
    have hw := w_val_gt_neg_one hphi
    have core := npv_lt_xstar_core (Real.sqrt (2 * (rho + lambda_val)) / sigma)
      ((rho + lambda_val) * (kappa / (1 - tau))) M
      (lambertW0 (-Real.exp
        (-(1 + (Real.sqrt (2 * (rho + lambda_val)) / sigma) * (rho + lambda_val) *
          (kappa / (1 - tau)) / M)))) hψ hM hA ?hw2
    case hw2 => exact hw
    have e1 : -(-(rho + lambda_val) * (kappa / (1 - tau)) / M) =
        (rho + lambda_val) * (kappa / (1 - tau)) / M := by ring
    have e2 : Real.sqrt (2 * (rho + lambda_val)) / sigma *
        ((rho + lambda_val) * (kappa / (1 - tau))) / M =
        Real.sqrt (2 * (rho + lambda_val)) / sigma * (rho + lambda_val) *
          (kappa / (1 - tau)) / M := by ring
    rw [e2] at core
    rw [e1]
    exact core

/-- Witness for C2 (amended) at M = 1, rho = 1, lambda = 0, sigma = 1,
kappa = 1, tau = 0, with every hypothesis discharged. -/
theorem C2_amended_npv_le_x_star_witness :
    |calculate_npv_threshold 1 1 0 1 0| <
      |(calculate_optimal_threshold 1 1 0 1 1 0).1| :=
  (C2_amended_npv_le_x_star 1 1 0 1 1 0 (by norm_num) (by norm_num)
    (by norm_num) (by norm_num) (by norm_num)).2 (by norm_num)

/-! ## Claim C3 -/

/-- Shared monotonicity fact: with kappa > 0 fixed and all other parameters
fixed in the valid domain, x_star is strictly decreasing in M. -/
lemma x_star_strictAnti_in_M
    (rho lambda_val sigma kappa tau M1 M2 : ℝ)
    (hM1 : 0 < M1) (hM12 : M1 < M2) (hσ : 0 < sigma) (hτ : tau < 1)
    (hrl : 0 < rho + lambda_val) (hκ : 0 < kappa) :
    (calculate_optimal_threshold M2 rho lambda_val sigma kappa tau).1 <
    (calculate_optimal_threshold M1 rho lambda_val sigma kappa tau).1 := by
  have hψ : 0 < Real.sqrt (2 * (rho + lambda_val)) / sigma := psi_pos hσ hrl
  have hC : 0 < kappa / (1 - tau) := div_pos hκ (by linarith)
  have hM2 : 0 < M2 := lt_trans hM1 hM12
  have hphi1 : 1 < 1 + (Real.sqrt (2 * (rho + lambda_val)) / sigma) *
      (rho + lambda_val) * (kappa / (1 - tau)) / M1 := phi_gt_one hM1 hσ hτ hrl hκ
  have hphi2 : 1 < 1 + (Real.sqrt (2 * (rho + lambda_val)) / sigma) *
      (rho + lambda_val) * (kappa / (1 - tau)) / M2 := phi_gt_one hM2 hσ hτ hrl hκ
  have hB : 0 < (Real.sqrt (2 * (rho + lambda_val)) / sigma) *
      (rho + lambda_val) * (kappa / (1 - tau)) := mul_pos (mul_pos hψ hrl) hC
  have hphilt : 1 + (Real.sqrt (2 * (rho + lambda_val)) / sigma) *
      (rho + lambda_val) * (kappa / (1 - tau)) / M2 <
      1 + (Real.sqrt (2 * (rho + lambda_val)) / sigma) *
      (rho + lambda_val) * (kappa / (1 - tau)) / M1 := by
    have := div_lt_div_of_pos_left hB hM1 hM12
    linarith
  rw [optimal_x_star_eq, optimal_x_star_eq]
  set phi1 := 1 + (Real.sqrt (2 * (rho + lambda_val)) / sigma) *
      (rho + lambda_val) * (kappa / (1 - tau)) / M1
  set phi2 := 1 + (Real.sqrt (2 * (rho + lambda_val)) / sigma) *
      (rho + lambda_val) * (kappa / (1 - tau)) / M2
  have hwlt : lambertW0 (-Real.exp (-phi2)) < lambertW0 (-Real.exp (-phi1)) := by
    apply lambertW0_strictMono (w_arg_mem hphi2.le).1 (w_arg_mem hphi2.le).2.le
      (w_arg_mem hphi1.le).1 (w_arg_mem hphi1.le).2.le
    have : Real.exp (-phi1) < Real.exp (-phi2) := Real.exp_lt_exp.2 (by linarith)
    linarith
  apply mul_lt_mul_of_pos_left _ (by positivity)
  linarith

/-- Counterexample for C3 as stated: the parenthetical gloss claims the
basis-point conversion -x_star * 10000 strictly decreases as M increases.
At M1 = 100000 < M2 = 200000 (rho = 1/20, lambda = 1/10, sigma = 109/10000,
kappa = 2000, tau = 7/25) that fails: x_star is positive here, so
-x_star * 10000 strictly increases with M. -/
theorem C3_counterexample :
    ¬ (-(calculate_optimal_threshold 200000 (1/20) (1/10) (109/10000) 2000
          (7/25)).1 * 10000 <
       -(calculate_optimal_threshold 100000 (1/20) (1/10) (109/10000) 2000
          (7/25)).1 * 10000) := by
  have h := x_star_strictAnti_in_M (1/20) (1/10) (109/10000) 2000 (7/25)
    100000 200000 (by norm_num) (by norm_num) (by norm_num) (by norm_num)
    (by norm_num) (by norm_num)
  intro hcon
  linarith

/-- Claim C3 (amended): holding rho, lambda, sigma, tau and the absolute
dollar cost kappa fixed, the threshold magnitude is strictly decreasing in M;
however since x_star is positive, the basis-point conversion -x_star * 10000
strictly increases (not decreases) as M increases. -/
theorem C3_amended_threshold_magnitude_decreasing_in_M
    (rho lambda_val sigma kappa tau M1 M2 : ℝ)
    (hM1 : 0 < M1) (hM12 : M1 < M2) (hσ : 0 < sigma) (hτ0 : 0 ≤ tau)
    (hτ : tau < 1) (hrl : 0 < rho + lambda_val) (hκ : 0 < kappa) :
    |(calculate_optimal_threshold M2 rho lambda_val sigma kappa tau).1| <
    |(calculate_optimal_threshold M1 rho lambda_val sigma kappa tau).1| ∧
    -(calculate_optimal_threshold M1 rho lambda_val sigma kappa tau).1 * 10000 <
    -(calculate_optimal_threshold M2 rho lambda_val sigma kappa tau).1 * 10000 := by
  have hψ : 0 < Real.sqrt (2 * (rho + lambda_val)) / sigma := psi_pos hσ hrl
  have hM2 : 0 < M2 := lt_trans hM1 hM12
  have hlt := x_star_strictAnti_in_M rho lambda_val sigma kappa tau M1 M2
    hM1 hM12 hσ hτ hrl hκ
  have hx1 : 0 ≤ (calculate_optimal_threshold M1 rho lambda_val sigma kappa tau).1 := by
    rw [optimal_x_star_eq]
    exact x_star_nonneg_core hψ (phi_ge_one hM1 hσ hτ hrl hκ.le)
  have hx2 : 0 ≤ (calculate_optimal_threshold M2 rho lambda_val sigma kappa tau).1 := by
    rw [optimal_x_star_eq]
    exact x_star_nonneg_core hψ (phi_ge_one hM2 hσ hτ hrl hκ.le)
  constructor
  · rw [abs_of_nonneg hx1, abs_of_nonneg hx2]
    exact hlt
  · linarith

/-- Witness for C3 (amended) at the spec test values M1 = 100000,
M2 = 200000, fixed_cost kappa = 2000, rho = 1/20, lambda = 1/10,
sigma = 109/10000, tau = 7/25. -/
theorem C3_amended_threshold_magnitude_decreasing_in_M_witness :
    |(calculate_optimal_threshold 200000 (1/20) (1/10) (109/10000) 2000
        (7/25)).1| <
    |(calculate_optimal_threshold 100000 (1/20) (1/10) (109/10000) 2000
        (7/25)).1| ∧
    -(calculate_optimal_threshold 100000 (1/20) (1/10) (109/10000) 2000
        (7/25)).1 * 10000 <
    -(calculate_optimal_threshold 200000 (1/20) (1/10) (109/10000) 2000
        (7/25)).1 * 10000 :=
  C3_amended_threshold_magnitude_decreasing_in_M (1/20) (1/10) (109/10000)
    2000 (7/25) 100000 200000 (by norm_num) (by norm_num) (by norm_num)
    (by norm_num) (by norm_num) (by norm_num) (by norm_num)

/-! ## AmortizationSimulator: ENPV mortality weights (pages/other_tools.py)

The ENPV calculation derives a single monthly mortality SMM from the annual
CPR via SMM = 1 - (1 - CPR)^(1/12), then walks survival forward month by
month: mortality(t) = survival(t) * SMM and survival(t+1) = survival(t)*(1-SMM),
over a 360 month horizon, folding the residual survival into the last month.
-/

/-- SMM = 1 - (1 - enpv_cpr)**(1/12). -/
noncomputable def smmOfCpr (cpr : ℝ) : ℝ := 1 - (1 - cpr) ^ ((1:ℝ)/12)

/-- Survival probability before month t+1 (survival = 1.0 initially,
then survival = survival * (1 - SMM) each month). -/
def survivalSeq (s : ℝ) : ℕ → ℝ
  | 0 => 1
  | t + 1 => survivalSeq s t * (1 - s)

/-- Per-month mortality weight m_t = survival * SMM. -/
def mortalityWeight (s : ℝ) (t : ℕ) : ℝ := survivalSeq s t * s

/-- Telescoping identity: the mortality weights over n months plus the
residual survival always sum to exactly 1. -/
lemma mortality_sum_add_residual (s : ℝ) :
    ∀ n : ℕ, (∑ t ∈ Finset.range n, mortalityWeight s t) + survivalSeq s n = 1 := by
  intro n
  induction n with
  | zero => simp [survivalSeq]
  | succ n ih =>
    rw [Finset.sum_range_succ]
    have h1 : survivalSeq s (n + 1) = survivalSeq s n * (1 - s) := rfl
    have h2 : mortalityWeight s n = survivalSeq s n * s := rfl
    rw [h1, h2]
    have : (∑ t ∈ Finset.range n, mortalityWeight s t) + survivalSeq s n * s +
        survivalSeq s n * (1 - s) =
        (∑ t ∈ Finset.range n, mortalityWeight s t) + survivalSeq s n := by ring
    rw [this, ih]

/-! ## Claim C5 -/

/-- Claim C5: in the ENPV computation, with SMM = 1 - (1-CPR)^(1/12), the sum
over the 360-month horizon of the per-month mortality weights
survival(t-1) * SMM, plus the residual survival probability folded into
month 360, equals 1 (exactly, in real arithmetic, hence within floating
tolerance), for every CPR in (0,1). -/
theorem C5_enpv_probability_conservation (cpr : ℝ) (h0 : 0 < cpr) (h1 : cpr < 1) :
    (∑ t ∈ Finset.range 360, mortalityWeight (smmOfCpr cpr) t) +
      survivalSeq (smmOfCpr cpr) 360 = 1 :=
  mortality_sum_add_residual (smmOfCpr cpr) 360

/-- Witness for C5 at CPR = 1/10. -/
theorem C5_enpv_probability_conservation_witness :
    (∑ t ∈ Finset.range 360, mortalityWeight (smmOfCpr (1/10)) t) +
      survivalSeq (smmOfCpr (1/10)) 360 = 1 :=
  C5_enpv_probability_conservation (1/10) (by norm_num) (by norm_num)

/-! ## AmortizationSimulator: level payment and balance walk
(pages/other_tools.py, render_enpv_analysis / compute_enpv_full)

Modelled over ℚ (exact arithmetic).  The month loop of compute_enpv_full
updates a loan balance as: interest = r * bal; principal = pmt - interest;
bal = max(0, bal - principal), guarded by t <= n and bal > 0 (otherwise the
balance is set to 0).
-/

/-- payment(principal, monthly_rate, n_months): level payment on an
amortizing loan. -/
def payment (principal monthly_rate : ℚ) (n_months : ℕ) : ℚ :=
  if monthly_rate = 0 then principal / n_months
  else principal * monthly_rate / (1 - (1 + monthly_rate) ^ (-(n_months : ℤ)))

/-- Outstanding balance after t months of the compute_enpv_full balance walk
for a loan with monthly rate r, payment pmt, initial balance b0 and term n. -/
def amortBalance (r pmt b0 : ℚ) (n : ℕ) : ℕ → ℚ
  | 0 => b0
  | t + 1 =>
    let b := amortBalance r pmt b0 n t
    if t + 1 ≤ n ∧ 0 < b then max 0 (b - (pmt - r * b)) else 0

lemma amortBalance_zero_principal (pmt : ℚ) (n : ℕ) :
    ∀ t : ℕ, amortBalance 0 pmt 0 n t = 0 := by
  intro t
  induction t with
  | zero => rfl
  | succ t ih => simp [amortBalance, ih]

lemma amortBalance_zero_rate (P : ℚ) (n : ℕ) (hP : 0 < P) (hn : 0 < n) :
    ∀ t : ℕ, t ≤ n → amortBalance 0 (P / n) P n t = P * ((n : ℚ) - t) / n := by
  have hn' : (0 : ℚ) < n := by exact_mod_cast hn
  intro t
  induction t with
  | zero =>
    intro _
    show P = P * ((n : ℚ) - 0) / n
    field_simp
  | succ t ih =>
    intro ht
    have ht' : t ≤ n := Nat.le_of_succ_le ht
    have hb := ih ht'
    have htn : (t : ℚ) < n := by exact_mod_cast Nat.lt_of_succ_le ht
    have hcond : t + 1 ≤ n ∧ 0 < amortBalance 0 (P / n) P n t := by
      refine ⟨ht, ?_⟩
      rw [hb]
      have h1 : 0 < (n : ℚ) - t := by linarith
      positivity
    show (if t + 1 ≤ n ∧ 0 < amortBalance 0 (P / n) P n t then
        max 0 (amortBalance 0 (P / n) P n t - (P / n - 0 * amortBalance 0 (P / n) P n t))
      else 0) = P * ((n : ℚ) - (t + 1 : ℕ)) / n
    rw [if_pos hcond, hb]
    have ht1 : ((t : ℚ) + 1) ≤ n := by exact_mod_cast ht
    have harith : P * ((n : ℚ) - t) / n - (P / n - 0 * (P * ((n : ℚ) - t) / n)) =
        P * ((n : ℚ) - ((t : ℚ) + 1)) / n := by
      field_simp
      ring
    rw [harith, max_eq_right]
    · push_cast
      ring
    · have h0 : 0 ≤ (n : ℚ) - ((t : ℚ) + 1) := by linarith
      positivity

/-! ## Claim C8 -/

/-- Claim C8: for a zero-rate loan, payment(P, 0, n) equals exactly P/n and
the month-by-month balance walk reaches exactly 0 at month n; for a monthly
rate r > 0, payment returns P * r / (1 - (1+r)^(-n)). -/
theorem C8_payment_and_zero_rate_amortization (P r : ℚ) (n : ℕ)
    (hP : 0 ≤ P) (hn : 0 < n) :
    payment P 0 n = P / n ∧
    amortBalance 0 (payment P 0 n) P n n = 0 ∧
    (0 < r → payment P r n = P * r / (1 - (1 + r) ^ (-(n : ℤ)))) := by
  refine ⟨by simp [payment], ?_, fun hr => by rw [payment, if_neg (ne_of_gt hr)]⟩
  have hpay : payment P 0 n = P / n := by simp [payment]
  rw [hpay]
  rcases eq_or_lt_of_le hP with h | h
  · rw [← h]
    simpa using amortBalance_zero_principal ((0 : ℚ) / n) n n
  · rw [amortBalance_zero_rate P n h hn n le_rfl]
    simp

/-- Witness for C8 at P = 1200, r = 1/100, n = 12. -/
theorem C8_payment_and_zero_rate_amortization_witness :
    payment 1200 0 12 = 1200 / 12 ∧
    amortBalance 0 (payment 1200 0 12) 1200 12 12 = 0 ∧
    ((0 : ℚ) < 1/100 → payment 1200 (1/100) 12 =
      1200 * (1/100) / (1 - (1 + 1/100) ^ (-(12 : ℤ)))) :=
  C8_payment_and_zero_rate_amortization 1200 (1/100) 12 (by norm_num)
    (by norm_num)

/-! ## Readiness decision (utils/optimal_threshold.py, is_ready_to_refinance)

Rates are modelled over ℚ; the python None inputs are modelled by Option.
The f-string number conversion :.0f is modelled by round-half-even to an
integer (the "-0" rendering python gives for small negative values is not
modelled; no theorem depends on the digits of the formatted number).
-/

/-- Round half to even, as python string formatting does. -/
def roundHalfEven (q : ℚ) : ℤ :=
  let f := ⌊q⌋
  let r := q - f
  if r < 1/2 then f
  else if 1/2 < r then f + 1
  else if f % 2 = 0 then f else f + 1

/-- Decimal formatting with 0 digits, as in the f-strings of the source. -/
def formatF0 (q : ℚ) : String := toString (roundHalfEven q)

structure ReadinessResult where
  is_ready : Bool
  difference : Option ℚ
  difference_bps : Option ℚ
  message : String

/-- is_ready_to_refinance(trigger_rate, available_rate). -/
def is_ready_to_refinance (trigger_rate available_rate : Option ℚ) :
    ReadinessResult :=
  match trigger_rate, available_rate with
  | some t, some a =>
    let difference := t - a
    let difference_bps := difference * 10000
    if 0 < difference then
      { is_ready := true
        difference := some difference
        difference_bps := some difference_bps
        message := "Ready to refinance! Available rate is " ++
          formatF0 difference_bps ++ " bps below trigger." }
    else
      { is_ready := false
        difference := some difference
        difference_bps := some difference_bps
        message := "Not ready. Need rates to drop " ++
          formatF0 (-difference_bps) ++ " more bps." }
  | _, _ =>
    { is_ready := false
      difference := none
      difference_bps := none
      message := "Missing rate data" }

/-! ## Claim C7 -/

/-- Claim C7: is_ready_to_refinance returns is_ready = true exactly when
trigger_rate - available_rate > 0 (a difference of exactly 0 is not ready);
and a missing input yields the dedicated message "Missing rate data", which
is distinct from every message produced when both rates are present, so
missing data is never conflated with "not ready because difference <= 0". -/
theorem C7_ready_iff_positive_difference_and_missing_distinct :
    (∀ t a : ℚ,
      ((is_ready_to_refinance (some t) (some a)).is_ready = true ↔ 0 < t - a)) ∧
    (∀ o : Option ℚ,
      (is_ready_to_refinance none o).message = "Missing rate data" ∧
      (is_ready_to_refinance o none).message = "Missing rate data") ∧
    (∀ t a : ℚ,
      (is_ready_to_refinance (some t) (some a)).message ≠ "Missing rate data") := by
  refine ⟨?_, ?_, ?_⟩
  · intro t a
    by_cases h : 0 < t - a
    · simp [is_ready_to_refinance, h]
    · simp [is_ready_to_refinance, h]
  · intro o
    cases o <;> exact ⟨rfl, rfl⟩
  · intro t a
    by_cases h : 0 < t - a
    · simp only [is_ready_to_refinance, if_pos h]
      intro hcon
      have hlen := congrArg String.length hcon
      rw [String.length_append, String.length_append] at hlen
      have h1 : ("Ready to refinance! Available rate is " : String).length = 38 :=
        rfl
      have h2 : (" bps below trigger." : String).length = 19 := rfl
      have h3 : ("Missing rate data" : String).length = 17 := rfl
      rw [h1, h2, h3] at hlen
      omega
    · simp only [is_ready_to_refinance, if_neg h]
      intro hcon
      have hlen := congrArg String.length hcon
      rw [String.length_append, String.length_append] at hlen
      have h1 : ("Not ready. Need rates to drop " : String).length = 30 := rfl
      have h2 : (" more bps." : String).length = 10 := rfl
      have h3 : ("Missing rate data" : String).length = 17 := rfl
      rw [h1, h2, h3] at hlen
      omega

/-! ## Rate pricing engine

The two python modules utils/rate_calculator.py and utils/llpa.py each carry
their own copy of the bucket functions and LLPA matrices; they are embedded
separately in namespaces RateCalc and Llpa.  The dict keys are the finite
label sets below; each dict row becomes a function from labels to ℚ.
-/

/-- LTV bucket labels: "<=30", "30.01-60", ..., ">95". -/
inductive LtvBucket where
  | le30 | b30_60 | b60_70 | b70_75 | b75_80 | b80_85 | b85_90 | b90_95 | gt95
deriving DecidableEq

/-- Credit score bucket labels: ">=780", "760-779", ..., "<=639". -/
inductive ScoreBucket where
  | ge780 | b760_779 | b740_759 | b720_739 | b700_719 | b680_699 | b660_679
  | b640_659 | le639
deriving DecidableEq

/-- One row of a 9-column LLPA matrix, in bucket order from "<=30" to ">95". -/
def llpaRow (a b c d e f g h i : ℚ) : LtvBucket → ℚ
  | .le30 => a | .b30_60 => b | .b60_70 => c | .b70_75 => d | .b75_80 => e
  | .b80_85 => f | .b85_90 => g | .b90_95 => h | .gt95 => i

/-- One row of a 5-column cash-out LLPA matrix ("<=30" to "75.01-80"); the
source dict has no further keys and get_ltv_bucket_cashout never produces
them, so the remaining labels are mapped to 0. -/
def cashoutRow (a b c d e : ℚ) : LtvBucket → ℚ
  | .le30 => a | .b30_60 => b | .b60_70 => c | .b70_75 => d | .b75_80 => e
  | _ => 0

/-- python str.upper(), modelled by mapping Char.toUpper over the
character list. -/
def pyUpper (s : String) : String := String.mk (s.data.map Char.toUpper)

namespace RateCalc

def CONFORMING_LIMIT_2025 : ℚ := 806500

def get_ltv_bucket (ltv : ℚ) : LtvBucket :=
  if ltv ≤ 30 then .le30
  else if ltv ≤ 60 then .b30_60
  else if ltv ≤ 70 then .b60_70
  else if ltv ≤ 75 then .b70_75
  else if ltv ≤ 80 then .b75_80
  else if ltv ≤ 85 then .b80_85
  else if ltv ≤ 90 then .b85_90
  else if ltv ≤ 95 then .b90_95
  else .gt95

def get_credit_score_bucket (credit_score : ℤ) : ScoreBucket :=
  if 780 ≤ credit_score then .ge780
  else if 760 ≤ credit_score then .b760_779
  else if 740 ≤ credit_score then .b740_759
  else if 720 ≤ credit_score then .b720_739
  else if 700 ≤ credit_score then .b700_719
  else if 680 ≤ credit_score then .b680_699
  else if 660 ≤ credit_score then .b660_679
  else if 640 ≤ credit_score then .b640_659
  else .le639

def PURCHASE_CREDIT_SCORE_LTV : ScoreBucket → LtvBucket → ℚ
  | .ge780 => llpaRow 0 0 0 0 0.375 0.375 0.250 0.250 0.125
  | .b760_779 => llpaRow 0 0 0 0.250 0.625 0.625 0.500 0.500 0.250
  | .b740_759 => llpaRow 0 0 0.125 0.375 0.875 1.000 0.750 0.625 0.500
  | .b720_739 => llpaRow 0 0 0.250 0.750 1.250 1.250 1.000 0.875 0.750
  | .b700_719 => llpaRow 0 0 0.375 0.875 1.375 1.500 1.250 1.125 0.875
  | .b680_699 => llpaRow 0 0 0.625 1.125 1.750 1.875 1.500 1.375 1.125
  | .b660_679 => llpaRow 0 0 0.750 1.375 1.875 2.125 1.750 1.625 1.250
  | .b640_659 => llpaRow 0 0 1.125 1.500 2.250 2.500 2.000 1.875 1.500
  | .le639 => llpaRow 0 0.125 1.500 2.125 2.750 2.875 2.625 2.250 1.750

def LIMITED_CASHOUT_CREDIT_SCORE_LTV : ScoreBucket → LtvBucket → ℚ
  | .ge780 => llpaRow 0 0 0 0.125 0.500 0.625 0.500 0.375 0.375
  | .b760_779 => llpaRow 0 0 0.125 0.375 0.875 1.000 0.750 0.625 0.625
  | .b740_759 => llpaRow 0 0 0.250 0.750 1.125 1.375 1.125 1.000 1.000
  | .b720_739 => llpaRow 0 0 0.500 1.000 1.625 1.750 1.500 1.250 1.250
  | .b700_719 => llpaRow 0 0 0.625 1.250 1.875 2.125 1.750 1.625 1.625
  | .b680_699 => llpaRow 0 0 0.875 1.625 2.250 2.500 2.125 1.750 1.750
  | .b660_679 => llpaRow 0 0.125 1.125 1.875 2.500 3.000 2.375 2.125 2.125
  | .b640_659 => llpaRow 0 0.250 1.375 2.125 2.875 3.375 2.875 2.500 2.500
  | .le639 => llpaRow 0 0.375 1.750 2.500 3.500 3.875 3.625 2.500 2.500

def PURCHASE_CONDO : LtvBucket → ℚ :=
  llpaRow 0 0 0.125 0.125 0.750 0.750 0.750 0.750 0.750

def PURCHASE_INVESTMENT : LtvBucket → ℚ :=
  llpaRow 1.125 1.125 1.625 2.125 3.375 4.125 4.125 4.125 4.125

def PURCHASE_SECOND_HOME : LtvBucket → ℚ :=
  llpaRow 1.125 1.125 1.625 2.125 3.375 4.125 4.125 4.125 4.125

def PURCHASE_2_TO_4_UNIT : LtvBucket → ℚ :=
  llpaRow 0 0 0.375 0.375 0.625 0.625 0.625 0.625 0.625

def PURCHASE_HIGH_BALANCE_FIXED : LtvBucket → ℚ :=
  llpaRow 0.500 0.500 0.750 0.750 1.000 1.000 1.000 1.000 1.000

/-- Result dict of calculate_conventional_llpa. -/
structure ConvLlpaResult where
  credit_ltv : ℚ
  property_type : ℚ
  occupancy : ℚ
  high_balance : ℚ
  total_llpa : ℚ

/-- calculate_conventional_llpa(credit_score, ltv, loan_amount, loan_purpose,
property_type, occupancy). -/
def calculate_conventional_llpa (credit_score : ℤ) (ltv loan_amount : ℚ)
    (loan_purpose property_type occupancy : String) : ConvLlpaResult :=
  let score_bucket := get_credit_score_bucket credit_score
  let ltv_bucket := get_ltv_bucket ltv
  let credit_ltv :=
    if loan_purpose = "Purchase" then
      PURCHASE_CREDIT_SCORE_LTV score_bucket ltv_bucket
    else
      LIMITED_CASHOUT_CREDIT_SCORE_LTV score_bucket ltv_bucket
  let prop :=
    if property_type = "Condo" then PURCHASE_CONDO ltv_bucket
    else if property_type = "2-Unit" ∨ property_type = "3-Unit" ∨
        property_type = "4-Unit" then PURCHASE_2_TO_4_UNIT ltv_bucket
    else 0
  let occ :=
    if occupancy = "Investment Property" then PURCHASE_INVESTMENT ltv_bucket
    else if occupancy = "Second Home" then PURCHASE_SECOND_HOME ltv_bucket
    else 0
  let hb :=
    if CONFORMING_LIMIT_2025 < loan_amount then
      PURCHASE_HIGH_BALANCE_FIXED ltv_bucket
    else 0
  { credit_ltv := credit_ltv, property_type := prop, occupancy := occ,
    high_balance := hb, total_llpa := credit_ltv + prop + occ + hb }

/-- Result dict of calculate_available_rate. -/
structure AvailableRateResult where
  base_rate : ℚ
  total_llpa : ℚ
  state_adjustment : ℚ
  final_rate : ℚ
  final_rate_decimal : ℚ
  adjustments : Option ConvLlpaResult
  loan_type : String
  note : Option String

/-- calculate_available_rate(base_rate, credit_score, ltv, loan_amount,
loan_type, property_type, occupancy, state_adjustment). -/
def calculate_available_rate (base_rate : ℚ) (credit_score : ℤ)
    (ltv loan_amount : ℚ) (loan_type property_type occupancy : String)
    (state_adjustment : ℚ) : AvailableRateResult :=
  if pyUpper loan_type = "FHA" then
    { base_rate := base_rate
      total_llpa := 0
      state_adjustment := state_adjustment
      final_rate := base_rate + state_adjustment
      final_rate_decimal := (base_rate + state_adjustment) / 100
      adjustments := none
      loan_type := "FHA"
      note := some "FHA does not have LLPAs" }
  else
    let adjustments := calculate_conventional_llpa credit_score ltv loan_amount
      "Rate/Term Refinance" property_type occupancy
    let total_llpa := adjustments.total_llpa
    { base_rate := base_rate
      total_llpa := total_llpa
      state_adjustment := state_adjustment
      final_rate := base_rate + total_llpa + state_adjustment
      final_rate_decimal := (base_rate + total_llpa + state_adjustment) / 100
      adjustments := some adjustments
      loan_type := "Conventional"
      note := none }

end RateCalc

/-! ## Claim C6 -/

/-- Claim C6: calculate_available_rate returns, for every FHA input,
final_rate = base_rate + state_adjustment with total_llpa = 0 (no LLPA
applied), while for every Conventional input it returns
final_rate = base_rate + total_LLPA + state_adjustment, where total_LLPA is
the full conventional LLPA sum for the borrower profile. -/
theorem C6_fha_vs_conventional_available_rate :
    (∀ (base_rate : ℚ) (credit_score : ℤ) (ltv loan_amount : ℚ)
        (property_type occupancy : String) (state_adjustment : ℚ),
      (RateCalc.calculate_available_rate base_rate credit_score ltv loan_amount
        "FHA" property_type occupancy state_adjustment).final_rate =
          base_rate + state_adjustment ∧
      (RateCalc.calculate_available_rate base_rate credit_score ltv loan_amount
        "FHA" property_type occupancy state_adjustment).total_llpa = 0) ∧
    (∀ (base_rate : ℚ) (credit_score : ℤ) (ltv loan_amount : ℚ)
        (property_type occupancy : String) (state_adjustment : ℚ),
      (RateCalc.calculate_available_rate base_rate credit_score ltv loan_amount
        "Conventional" property_type occupancy state_adjustment).final_rate =
          base_rate +
          (RateCalc.calculate_conventional_llpa credit_score ltv loan_amount
            "Rate/Term Refinance" property_type occupancy).total_llpa +
          state_adjustment) := by
  constructor
  · intro base_rate credit_score ltv loan_amount property_type occupancy
      state_adjustment
    rw [RateCalc.calculate_available_rate, if_pos (by decide)]
    exact ⟨rfl, rfl⟩
  · intro base_rate credit_score ltv loan_amount property_type occupancy
      state_adjustment
    rw [RateCalc.calculate_available_rate, if_neg (by decide)]

namespace Llpa

def CONFORMING_LIMIT_2025 : ℚ := 806500

def get_ltv_bucket (ltv : ℚ) : LtvBucket :=
  if ltv ≤ 30 then .le30
  else if ltv ≤ 60 then .b30_60
  else if ltv ≤ 70 then .b60_70
  else if ltv ≤ 75 then .b70_75
  else if ltv ≤ 80 then .b75_80
  else if ltv ≤ 85 then .b80_85
  else if ltv ≤ 90 then .b85_90
  else if ltv ≤ 95 then .b90_95
  else .gt95

def get_ltv_bucket_cashout (ltv : ℚ) : LtvBucket :=
  if ltv ≤ 30 then .le30
  else if ltv ≤ 60 then .b30_60
  else if ltv ≤ 70 then .b60_70
  else if ltv ≤ 75 then .b70_75
  else .b75_80

def get_credit_score_bucket (credit_score : ℤ) : ScoreBucket :=
  if 780 ≤ credit_score then .ge780
  else if 760 ≤ credit_score then .b760_779
  else if 740 ≤ credit_score then .b740_759
  else if 720 ≤ credit_score then .b720_739
  else if 700 ≤ credit_score then .b700_719
  else if 680 ≤ credit_score then .b680_699
  else if 660 ≤ credit_score then .b660_679
  else if 640 ≤ credit_score then .b640_659
  else .le639

def PURCHASE_CREDIT_SCORE_LTV : ScoreBucket → LtvBucket → ℚ
  | .ge780 => llpaRow 0 0 0 0 0.375 0.375 0.250 0.250 0.125
  | .b760_779 => llpaRow 0 0 0 0.250 0.625 0.625 0.500 0.500 0.250
  | .b740_759 => llpaRow 0 0 0.125 0.375 0.875 1.000 0.750 0.625 0.500
  | .b720_739 => llpaRow 0 0 0.250 0.750 1.250 1.250 1.000 0.875 0.750
  | .b700_719 => llpaRow 0 0 0.375 0.875 1.375 1.500 1.250 1.125 0.875
  | .b680_699 => llpaRow 0 0 0.625 1.125 1.750 1.875 1.500 1.375 1.125
  | .b660_679 => llpaRow 0 0 0.750 1.375 1.875 2.125 1.750 1.625 1.250
  | .b640_659 => llpaRow 0 0 1.125 1.500 2.250 2.500 2.000 1.875 1.500
  | .le639 => llpaRow 0 0.125 1.500 2.125 2.750 2.875 2.625 2.250 1.750

def LIMITED_CASHOUT_CREDIT_SCORE_LTV : ScoreBucket → LtvBucket → ℚ
  | .ge780 => llpaRow 0 0 0 0.125 0.500 0.625 0.500 0.375 0.375
  | .b760_779 => llpaRow 0 0 0.125 0.375 0.875 1.000 0.750 0.625 0.625
  | .b740_759 => llpaRow 0 0 0.250 0.750 1.125 1.375 1.125 1.000 1.000
  | .b720_739 => llpaRow 0 0 0.500 1.000 1.625 1.750 1.500 1.250 1.250
  | .b700_719 => llpaRow 0 0 0.625 1.250 1.875 2.125 1.750 1.625 1.625
  | .b680_699 => llpaRow 0 0 0.875 1.625 2.250 2.500 2.125 1.750 1.750
  | .b660_679 => llpaRow 0 0.125 1.125 1.875 2.500 3.000 2.375 2.125 2.125
  | .b640_659 => llpaRow 0 0.250 1.375 2.125 2.875 3.375 2.875 2.500 2.500
  | .le639 => llpaRow 0 0.375 1.750 2.500 3.500 3.875 3.625 2.500 2.500

def CASHOUT_CREDIT_SCORE_LTV : ScoreBucket → LtvBucket → ℚ
  | .ge780 => cashoutRow 0.375 0.375 0.625 0.875 1.375
  | .b760_779 => cashoutRow 0.375 0.375 0.875 1.250 1.875
  | .b740_759 => cashoutRow 0.375 0.375 1.000 1.625 2.375
  | .b720_739 => cashoutRow 0.375 0.500 1.375 2.000 2.750
  | .b700_719 => cashoutRow 0.375 0.500 1.625 2.625 3.250
  | .b680_699 => cashoutRow 0.375 0.625 2.000 2.875 3.750
  | .b660_679 => cashoutRow 0.375 0.875 2.750 4.000 4.750
  | .b640_659 => cashoutRow 0.375 1.375 3.125 4.625 5.125
  | .le639 => cashoutRow 0.375 1.375 3.375 4.875 5.125

def CONDO_ADJUSTMENT : LtvBucket → ℚ :=
  llpaRow 0 0 0.125 0.125 0.750 0.750 0.750 0.750 0.750

def MULTI_UNIT_ADJUSTMENT : LtvBucket → ℚ :=
  llpaRow 0 0 0.375 0.375 0.625 0.625 0.625 0.625 0.625

def MANUFACTURED_ADJUSTMENT : LtvBucket → ℚ :=
  llpaRow 0.500 0.500 0.500 0.500 0.500 0.500 0.500 0.500 0.500

def INVESTMENT_PROPERTY_ADJUSTMENT : LtvBucket → ℚ :=
  llpaRow 1.125 1.125 1.625 2.125 3.375 4.125 4.125 4.125 4.125

def SECOND_HOME_ADJUSTMENT : LtvBucket → ℚ :=
  llpaRow 1.125 1.125 1.625 2.125 3.375 4.125 4.125 4.125 4.125

def HIGH_BALANCE_FIXED : LtvBucket → ℚ :=
  llpaRow 0.500 0.500 0.750 0.750 1.000 1.000 1.000 1.000 1.000

def HIGH_BALANCE_ARM : LtvBucket → ℚ :=
  llpaRow 1.250 1.250 1.500 1.500 2.500 2.500 2.500 2.750 2.750

def SUBORDINATE_FINANCING_ADJUSTMENT : LtvBucket → ℚ :=
  llpaRow 0.625 0.625 0.625 0.875 1.125 1.125 1.125 1.875 1.875

/-- get_credit_score_ltv_adjustment(credit_score, ltv, loan_purpose). -/
def get_credit_score_ltv_adjustment (credit_score : ℤ) (ltv : ℚ)
    (loan_purpose : String) : ℚ :=
  let score_bucket := get_credit_score_bucket credit_score
  if loan_purpose = "Purchase" then
    PURCHASE_CREDIT_SCORE_LTV score_bucket (get_ltv_bucket ltv)
  else if loan_purpose = "Rate/Term Refinance" then
    LIMITED_CASHOUT_CREDIT_SCORE_LTV score_bucket (get_ltv_bucket ltv)
  else if loan_purpose = "Cash-Out Refinance" then
    CASHOUT_CREDIT_SCORE_LTV score_bucket (get_ltv_bucket_cashout ltv)
  else 0

/-- get_property_type_adjustment(property_type, ltv, loan_purpose). -/
def get_property_type_adjustment (property_type : String) (ltv : ℚ)
    (loan_purpose : String) : ℚ :=
  let ltv_bucket :=
    if loan_purpose = "Cash-Out Refinance" then get_ltv_bucket_cashout ltv
    else get_ltv_bucket ltv
  if property_type = "Condo" then CONDO_ADJUSTMENT ltv_bucket
  else if property_type = "2-Unit" ∨ property_type = "3-Unit" ∨
      property_type = "4-Unit" then MULTI_UNIT_ADJUSTMENT ltv_bucket
  else if property_type = "Manufactured Home" then
    MANUFACTURED_ADJUSTMENT ltv_bucket
  else 0

/-- get_occupancy_adjustment(occupancy, ltv, loan_purpose). -/
def get_occupancy_adjustment (occupancy : String) (ltv : ℚ)
    (loan_purpose : String) : ℚ :=
  let ltv_bucket :=
    if loan_purpose = "Cash-Out Refinance" then get_ltv_bucket_cashout ltv
    else get_ltv_bucket ltv
  if occupancy = "Investment Property" then
    INVESTMENT_PROPERTY_ADJUSTMENT ltv_bucket
  else if occupancy = "Second Home" then SECOND_HOME_ADJUSTMENT ltv_bucket
  else 0

/-- get_high_balance_adjustment(loan_amount, ltv, is_arm). -/
def get_high_balance_adjustment (loan_amount ltv : ℚ) (is_arm : Bool) : ℚ :=
  if loan_amount ≤ CONFORMING_LIMIT_2025 then 0
  else if is_arm then HIGH_BALANCE_ARM (get_ltv_bucket ltv)
  else HIGH_BALANCE_FIXED (get_ltv_bucket ltv)

/-- get_subordinate_financing_adjustment(ltv, cltv). -/
def get_subordinate_financing_adjustment (ltv cltv : ℚ) : ℚ :=
  if cltv ≤ ltv then 0
  else SUBORDINATE_FINANCING_ADJUSTMENT (get_ltv_bucket ltv)

/-- Result dict of calculate_total_llpa. -/
structure TotalLlpaResult where
  credit_ltv : ℚ
  property_type : ℚ
  occupancy : ℚ
  high_balance : ℚ
  subordinate_financing : ℚ
  total_llpa : ℚ
  llpa_waiver_applied : Bool
  waiver_reason : Option String

/-- calculate_total_llpa(credit_score, ltv, loan_amount, loan_purpose,
property_type, occupancy, is_arm, cltv, is_homeready,
is_first_time_buyer_low_income). -/
def calculate_total_llpa (credit_score : ℤ) (ltv loan_amount : ℚ)
    (loan_purpose property_type occupancy : String) (is_arm : Bool)
    (cltv : Option ℚ) (is_homeready is_first_time_buyer_low_income : Bool) :
    TotalLlpaResult :=
  if is_homeready || is_first_time_buyer_low_income then
    { credit_ltv := 0, property_type := 0, occupancy := 0, high_balance := 0,
      subordinate_financing := 0, total_llpa := 0, llpa_waiver_applied := true,
      waiver_reason := some (if is_homeready then "HomeReady"
        else "First-Time Buyer Low Income") }
  else
    let cltv_val := cltv.getD ltv
    let c := get_credit_score_ltv_adjustment credit_score ltv loan_purpose
    let p := get_property_type_adjustment property_type ltv loan_purpose
    let o := get_occupancy_adjustment occupancy ltv loan_purpose
    let h := get_high_balance_adjustment loan_amount ltv is_arm
    let s := get_subordinate_financing_adjustment ltv cltv_val
    { credit_ltv := c, property_type := p, occupancy := o, high_balance := h,
      subordinate_financing := s, total_llpa := c + p + o + h + s,
      llpa_waiver_applied := false, waiver_reason := none }

end Llpa

/-! ## Claim C10: agreement of the two LLPA engines -/

lemma ltv_bucket_eq : RateCalc.get_ltv_bucket = Llpa.get_ltv_bucket := by
  funext x
  rfl

lemma score_bucket_eq :
    RateCalc.get_credit_score_bucket = Llpa.get_credit_score_bucket := by
  funext x
  rfl

lemma purchase_table_eq :
    RateCalc.PURCHASE_CREDIT_SCORE_LTV = Llpa.PURCHASE_CREDIT_SCORE_LTV := by
  funext s
  cases s <;> rfl

lemma limited_cashout_table_eq :
    RateCalc.LIMITED_CASHOUT_CREDIT_SCORE_LTV =
      Llpa.LIMITED_CASHOUT_CREDIT_SCORE_LTV := by
  funext s
  cases s <;> rfl

lemma condo_table_eq : RateCalc.PURCHASE_CONDO = Llpa.CONDO_ADJUSTMENT := rfl

lemma multi_unit_table_eq :
    RateCalc.PURCHASE_2_TO_4_UNIT = Llpa.MULTI_UNIT_ADJUSTMENT := rfl

lemma investment_table_eq :
    RateCalc.PURCHASE_INVESTMENT = Llpa.INVESTMENT_PROPERTY_ADJUSTMENT := rfl

lemma second_home_table_eq :
    RateCalc.PURCHASE_SECOND_HOME = Llpa.SECOND_HOME_ADJUSTMENT := rfl

lemma high_balance_table_eq :
    RateCalc.PURCHASE_HIGH_BALANCE_FIXED = Llpa.HIGH_BALANCE_FIXED := rfl

/-- The Total LLPA of the rate-calculator engine, written out. -/
lemma RateCalc_total_eq (credit_score : ℤ) (ltv loan_amount : ℚ)
    (loan_purpose property_type occupancy : String) :
    (RateCalc.calculate_conventional_llpa credit_score ltv loan_amount
      loan_purpose property_type occupancy).total_llpa =
    (if loan_purpose = "Purchase" then
        RateCalc.PURCHASE_CREDIT_SCORE_LTV
          (RateCalc.get_credit_score_bucket credit_score)
          (RateCalc.get_ltv_bucket ltv)
      else
        RateCalc.LIMITED_CASHOUT_CREDIT_SCORE_LTV
          (RateCalc.get_credit_score_bucket credit_score)
          (RateCalc.get_ltv_bucket ltv)) +
    (if property_type = "Condo" then
        RateCalc.PURCHASE_CONDO (RateCalc.get_ltv_bucket ltv)
      else if property_type = "2-Unit" ∨ property_type = "3-Unit" ∨
          property_type = "4-Unit" then
        RateCalc.PURCHASE_2_TO_4_UNIT (RateCalc.get_ltv_bucket ltv)
      else 0) +
    (if occupancy = "Investment Property" then
        RateCalc.PURCHASE_INVESTMENT (RateCalc.get_ltv_bucket ltv)
      else if occupancy = "Second Home" then
        RateCalc.PURCHASE_SECOND_HOME (RateCalc.get_ltv_bucket ltv)
      else 0) +
    (if RateCalc.CONFORMING_LIMIT_2025 < loan_amount then
        RateCalc.PURCHASE_HIGH_BALANCE_FIXED (RateCalc.get_ltv_bucket ltv)
      else 0) := rfl

/-- The Total LLPA of the llpa-module engine without waiver, written out. -/
lemma Llpa_total_eq (credit_score : ℤ) (ltv loan_amount : ℚ)
    (loan_purpose property_type occupancy : String) (is_arm : Bool)
    (cltv : Option ℚ) :
    (Llpa.calculate_total_llpa credit_score ltv loan_amount loan_purpose
      property_type occupancy is_arm cltv false false).total_llpa =
    Llpa.get_credit_score_ltv_adjustment credit_score ltv loan_purpose +
    Llpa.get_property_type_adjustment property_type ltv loan_purpose +
    Llpa.get_occupancy_adjustment occupancy ltv loan_purpose +
    Llpa.get_high_balance_adjustment loan_amount ltv is_arm +
    Llpa.get_subordinate_financing_adjustment ltv (cltv.getD ltv) := rfl

lemma mapped_purpose_ne_cashout (loan_purpose : String) :
    (if loan_purpose = "Purchase" then "Purchase" else "Rate/Term Refinance") ≠
      "Cash-Out Refinance" := by
  by_cases hp : loan_purpose = "Purchase" <;> simp [hp]

lemma credit_component_refines (credit_score : ℤ) (ltv : ℚ)
    (loan_purpose : String) :
    (if loan_purpose = "Purchase" then
        RateCalc.PURCHASE_CREDIT_SCORE_LTV
          (RateCalc.get_credit_score_bucket credit_score)
          (RateCalc.get_ltv_bucket ltv)
      else
        RateCalc.LIMITED_CASHOUT_CREDIT_SCORE_LTV
          (RateCalc.get_credit_score_bucket credit_score)
          (RateCalc.get_ltv_bucket ltv)) =
    Llpa.get_credit_score_ltv_adjustment credit_score ltv
      (if loan_purpose = "Purchase" then "Purchase"
        else "Rate/Term Refinance") := by
  by_cases hp : loan_purpose = "Purchase"
  · simp [hp, Llpa.get_credit_score_ltv_adjustment, purchase_table_eq,
      score_bucket_eq, ltv_bucket_eq]
  · simp [hp, Llpa.get_credit_score_ltv_adjustment, limited_cashout_table_eq,
      score_bucket_eq, ltv_bucket_eq]

lemma property_component_refines (ltv : ℚ)
    (loan_purpose property_type : String) :
    (if property_type = "Condo" then
        RateCalc.PURCHASE_CONDO (RateCalc.get_ltv_bucket ltv)
      else if property_type = "2-Unit" ∨ property_type = "3-Unit" ∨
          property_type = "4-Unit" then
        RateCalc.PURCHASE_2_TO_4_UNIT (RateCalc.get_ltv_bucket ltv)
      else 0) =
    Llpa.get_property_type_adjustment
      (if property_type = "Manufactured Home" then "Single Family"
        else property_type) ltv
      (if loan_purpose = "Purchase" then "Purchase"
        else "Rate/Term Refinance") := by
  have hpc := mapped_purpose_ne_cashout loan_purpose
  by_cases h1 : property_type = "Manufactured Home"
  · simp [h1, Llpa.get_property_type_adjustment, hpc]
  · by_cases hc : property_type = "Condo"
    · simp [h1, hc, Llpa.get_property_type_adjustment, hpc, condo_table_eq,
        ltv_bucket_eq]
    · by_cases hm : property_type = "2-Unit" ∨ property_type = "3-Unit" ∨
          property_type = "4-Unit"
      · simp [h1, hc, hm, Llpa.get_property_type_adjustment, hpc,
          multi_unit_table_eq, ltv_bucket_eq]
      · simp [h1, hc, hm, Llpa.get_property_type_adjustment, hpc]

lemma occupancy_component_refines (ltv : ℚ)
    (loan_purpose occupancy : String) :
    (if occupancy = "Investment Property" then
        RateCalc.PURCHASE_INVESTMENT (RateCalc.get_ltv_bucket ltv)
      else if occupancy = "Second Home" then
        RateCalc.PURCHASE_SECOND_HOME (RateCalc.get_ltv_bucket ltv)
      else 0) =
    Llpa.get_occupancy_adjustment occupancy ltv
      (if loan_purpose = "Purchase" then "Purchase"
        else "Rate/Term Refinance") := by
  have hpc := mapped_purpose_ne_cashout loan_purpose
  by_cases h1 : occupancy = "Investment Property"
  · simp [h1, Llpa.get_occupancy_adjustment, hpc, investment_table_eq,
      ltv_bucket_eq]
  · by_cases h2 : occupancy = "Second Home"
    · simp [h1, h2, Llpa.get_occupancy_adjustment, hpc, second_home_table_eq,
        ltv_bucket_eq]
    · simp [h1, h2, Llpa.get_occupancy_adjustment, hpc]

lemma high_balance_component_refines (ltv loan_amount : ℚ) :
    (if RateCalc.CONFORMING_LIMIT_2025 < loan_amount then
        RateCalc.PURCHASE_HIGH_BALANCE_FIXED (RateCalc.get_ltv_bucket ltv)
      else 0) =
    Llpa.get_high_balance_adjustment loan_amount ltv false := by
  have hlim : RateCalc.CONFORMING_LIMIT_2025 = Llpa.CONFORMING_LIMIT_2025 := rfl
  by_cases h : loan_amount ≤ Llpa.CONFORMING_LIMIT_2025
  · have h2 : ¬ RateCalc.CONFORMING_LIMIT_2025 < loan_amount := by
      rw [hlim]; exact not_lt.2 h
    simp [h, h2, Llpa.get_high_balance_adjustment]
  · have h2 : RateCalc.CONFORMING_LIMIT_2025 < loan_amount := by
      rw [hlim]; exact not_le.1 h
    simp [h, h2, Llpa.get_high_balance_adjustment, high_balance_table_eq,
      ltv_bucket_eq]

/-- Shared refinement fact: for every input, the rate-calculator LLPA total
equals the llpa-module total with the purpose collapsed to
Purchase / Rate-Term, manufactured homes treated as plain single-family,
no ARM, no subordinate financing (cltv = ltv) and no waivers. -/
lemma conv_llpa_refines (credit_score : ℤ) (ltv loan_amount : ℚ)
    (loan_purpose property_type occupancy : String) :
    (RateCalc.calculate_conventional_llpa credit_score ltv loan_amount
      loan_purpose property_type occupancy).total_llpa =
    (Llpa.calculate_total_llpa credit_score ltv loan_amount
      (if loan_purpose = "Purchase" then "Purchase" else "Rate/Term Refinance")
      (if property_type = "Manufactured Home" then "Single Family"
        else property_type)
      occupancy false (some ltv) false false).total_llpa := by
  rw [RateCalc_total_eq, Llpa_total_eq]
  rw [← credit_component_refines credit_score ltv loan_purpose,
    ← property_component_refines ltv loan_purpose property_type,
    ← occupancy_component_refines ltv loan_purpose occupancy,
    ← high_balance_component_refines ltv loan_amount]
  have hsub : Llpa.get_subordinate_financing_adjustment ltv
      ((some ltv).getD ltv) = 0 := by
    simp [Llpa.get_subordinate_financing_adjustment]
  rw [hsub]
  ring

/-- Claim C10: on the restricted class (purpose Purchase or Rate/Term,
standard property types, no ARM, cltv = ltv, no waivers) the two LLPA
engines return the same Total LLPA; and on every input the rate-calculator
engine agrees with the llpa-module engine run with cash-out, manufactured
homes, ARM high-balance, subordinate financing and waivers all disabled,
i.e. it never applies any of those handlings. -/
theorem C10_llpa_engines_agree :
    (∀ (credit_score : ℤ) (ltv loan_amount : ℚ)
        (loan_purpose property_type occupancy : String),
      (loan_purpose = "Purchase" ∨ loan_purpose = "Rate/Term Refinance") →
      (property_type = "Single Family" ∨ property_type = "Condo" ∨
        property_type = "2-Unit" ∨ property_type = "3-Unit" ∨
        property_type = "4-Unit") →
      (RateCalc.calculate_conventional_llpa credit_score ltv loan_amount
        loan_purpose property_type occupancy).total_llpa =
      (Llpa.calculate_total_llpa credit_score ltv loan_amount loan_purpose
        property_type occupancy false (some ltv) false false).total_llpa) ∧
    (∀ (credit_score : ℤ) (ltv loan_amount : ℚ)
        (loan_purpose property_type occupancy : String),
      (RateCalc.calculate_conventional_llpa credit_score ltv loan_amount
        loan_purpose property_type occupancy).total_llpa =
      (Llpa.calculate_total_llpa credit_score ltv loan_amount
        (if loan_purpose = "Purchase" then "Purchase"
          else "Rate/Term Refinance")
        (if property_type = "Manufactured Home" then "Single Family"
          else property_type)
        occupancy false (some ltv) false false).total_llpa) := by
  constructor
  · intro credit_score ltv loan_amount loan_purpose property_type occupancy
      hpurp hpt
    have h := conv_llpa_refines credit_score ltv loan_amount loan_purpose
      property_type occupancy
    have hpt_ne : property_type ≠ "Manufactured Home" := by
      rcases hpt with h1 | h1 | h1 | h1 | h1 <;> simp [h1]
    have e1 : (if loan_purpose = "Purchase" then "Purchase"
        else "Rate/Term Refinance") = loan_purpose := by
      rcases hpurp with h1 | h1 <;> simp [h1]
    have e2 : (if property_type = "Manufactured Home" then "Single Family"
        else property_type) = property_type := if_neg hpt_ne
    rw [e1, e2] at h
    exact h
  · intro credit_score ltv loan_amount loan_purpose property_type occupancy
    exact conv_llpa_refines credit_score ltv loan_amount loan_purpose
      property_type occupancy

/-- Witness for C10 at credit score 780, ltv 85, loan amount 900000
(high balance), Rate/Term Refinance, Condo, Second Home. -/
theorem C10_llpa_engines_agree_witness :
    (RateCalc.calculate_conventional_llpa 780 85 900000 "Rate/Term Refinance"
      "Condo" "Second Home").total_llpa =
    (Llpa.calculate_total_llpa 780 85 900000 "Rate/Term Refinance" "Condo"
      "Second Home" false (some 85) false false).total_llpa :=
  C10_llpa_engines_agree.1 780 85 900000 "Rate/Term Refinance" "Condo"
    "Second Home" (Or.inr rfl) (Or.inr (Or.inl rfl))

/-! ## calculate_trigger_rate (utils/optimal_threshold.py), real-number model

The result dict of calculate_trigger_rate; on the exact real model the
NaN guards of the source never fire, so every field is a total real value.
-/

structure TriggerRateResult where
  optimal_threshold_bps : ℝ
  trigger_rate : ℝ
  x_star : ℝ
  sqrt_approx_bps : ℝ
  npv_threshold_bps : ℝ
  lambda_val : ℝ
  kappa : ℝ
  psi : ℝ
  phi : ℝ
  C_M : ℝ
  current_rate : ℝ

/-- calculate_trigger_rate(current_rate, remaining_balance, remaining_years,
discount_rate, volatility, tax_rate, fixed_cost, points, prob_moving,
inflation_rate).  The source first normalizes current_rate: a value > 1 is
treated as a percentage and divided by 100. -/
noncomputable def calculate_trigger_rate
    (current_rate remaining_balance remaining_years discount_rate volatility
      tax_rate fixed_cost points prob_moving inflation_rate : ℝ) :
    TriggerRateResult :=
  let current_rate := if 1 < current_rate then current_rate / 100
    else current_rate
  let lambda_val := calculate_lambda prob_moving current_rate remaining_years
    inflation_rate
  let kappa := calculate_kappa remaining_balance points fixed_cost tax_rate
  let r := calculate_optimal_threshold remaining_balance discount_rate
    lambda_val volatility kappa tax_rate
  let x_star := r.1
  let x_star_sqrt := calculate_square_root_approximation remaining_balance
    discount_rate lambda_val volatility kappa tax_rate
  let x_npv := calculate_npv_threshold remaining_balance discount_rate
    lambda_val kappa tax_rate
  { optimal_threshold_bps := -x_star * 10000
    trigger_rate := current_rate - |x_star|
    x_star := x_star
    sqrt_approx_bps := -x_star_sqrt * 10000
    npv_threshold_bps := -x_npv * 10000
    lambda_val := lambda_val
    kappa := kappa
    psi := r.2.1
    phi := r.2.2.1
    C_M := r.2.2.2
    current_rate := current_rate }

lemma trigger_current_rate_eq
    (current_rate remaining_balance remaining_years discount_rate volatility
      tax_rate fixed_cost points prob_moving inflation_rate : ℝ) :
    (calculate_trigger_rate current_rate remaining_balance remaining_years
      discount_rate volatility tax_rate fixed_cost points prob_moving
      inflation_rate).current_rate =
    (if 1 < current_rate then current_rate / 100 else current_rate) := rfl

/-! ## Claim C9 -/

/-- Counterexample for C9 as stated: for current_rate = 200 > 1, the call
with 200 and the call with 200/100 = 2 disagree, because 2 is itself > 1 and
gets normalized a second time: the first call works with rate 2.0, the
second with rate 0.02. -/
theorem C9_counterexample :
    calculate_trigger_rate 200 400000 25 (5/100) (109/10000) (28/100) 2000
      (1/100) (1/10) (3/100) ≠
    calculate_trigger_rate 2 400000 25 (5/100) (109/10000) (28/100) 2000
      (1/100) (1/10) (3/100) := by
  intro h
  have hcr := congrArg TriggerRateResult.current_rate h
  rw [trigger_current_rate_eq, trigger_current_rate_eq] at hcr
  rw [if_pos (by norm_num : (1:ℝ) < 200), if_pos (by norm_num : (1:ℝ) < 2)]
    at hcr
  norm_num at hcr

/-- Claim C9 (amended): calculate_trigger_rate interprets current_rate > 1
as a percentage, so the call with r agrees with the call with r/100 for
every r in (1, 100] (for r > 100 the quotient r/100 is itself > 1 and is
normalized again, so the two calls disagree); values <= 1 are used
unchanged. -/
theorem C9_amended_rate_normalization
    (current_rate remaining_balance remaining_years discount_rate volatility
      tax_rate fixed_cost points prob_moving inflation_rate : ℝ) :
    (1 < current_rate → current_rate ≤ 100 →
      calculate_trigger_rate current_rate remaining_balance remaining_years
        discount_rate volatility tax_rate fixed_cost points prob_moving
        inflation_rate =
      calculate_trigger_rate (current_rate / 100) remaining_balance
        remaining_years discount_rate volatility tax_rate fixed_cost points
        prob_moving inflation_rate) ∧
    (current_rate ≤ 1 →
      (calculate_trigger_rate current_rate remaining_balance remaining_years
        discount_rate volatility tax_rate fixed_cost points prob_moving
        inflation_rate).current_rate = current_rate) := by
  constructor
  · intro h1 h2
    have hnorm1 : (if 1 < current_rate then current_rate / 100
        else current_rate) = current_rate / 100 := if_pos h1
    have hle : current_rate / 100 ≤ 1 := by linarith
    have hnorm2 : (if 1 < current_rate / 100 then current_rate / 100 / 100
        else current_rate / 100) = current_rate / 100 :=
      if_neg (not_lt.2 hle)
    simp only [calculate_trigger_rate, hnorm1, hnorm2]
  · intro h
    rw [trigger_current_rate_eq, if_neg (not_lt.2 h)]

/-- Witness for C9 (amended) at current_rate = 13/2 (i.e. 6.5 percent). -/
theorem C9_amended_rate_normalization_witness :
    calculate_trigger_rate (13/2) 400000 25 (5/100) (109/10000) (28/100) 2000
      (1/100) (1/10) (3/100) =
    calculate_trigger_rate ((13/2) / 100) 400000 25 (5/100) (109/10000)
      (28/100) 2000 (1/100) (1/10) (3/100) :=
  (C9_amended_rate_normalization (13/2) 400000 25 (5/100) (109/10000)
    (28/100) 2000 (1/100) (1/10) (3/100)).1 (by norm_num) (by norm_num)

/-! ## IEEE special-value model for the error-handling claims

numpy float arithmetic with special values is modelled by FP: exact reals
plus inf, -inf and nan, with the IEEE-754 propagation rules for the
operations the solver uses.  Zero is unsigned (taken as +0); the only
negative zero the source produces is -exp(-inf) = -0.0, and
lambertw(-0.0) = 0 = lambertw(0.0), so the sign of zero is irrelevant here.
-/

inductive FP where
  | fin : ℝ → FP
  | inf : FP
  | ninf : FP
  | nan : FP

namespace FP

noncomputable def add : FP → FP → FP
  | nan, _ => nan
  | _, nan => nan
  | fin a, fin b => fin (a + b)
  | fin _, inf => inf
  | inf, fin _ => inf
  | fin _, ninf => ninf
  | ninf, fin _ => ninf
  | inf, inf => inf
  | ninf, ninf => ninf
  | inf, ninf => nan
  | ninf, inf => nan

def neg : FP → FP
  | fin a => fin (-a)
  | inf => ninf
  | ninf => inf
  | nan => nan

noncomputable def sub (a b : FP) : FP := a.add b.neg

noncomputable def mul : FP → FP → FP
  | nan, _ => nan
  | _, nan => nan
  | fin a, fin b => fin (a * b)
  | fin a, inf => if 0 < a then inf else if a < 0 then ninf else nan
  | inf, fin b => if 0 < b then inf else if b < 0 then ninf else nan
  | fin a, ninf => if 0 < a then ninf else if a < 0 then inf else nan
  | ninf, fin b => if 0 < b then ninf else if b < 0 then inf else nan
  | inf, inf => inf
  | inf, ninf => ninf
  | ninf, inf => ninf
  | ninf, ninf => inf

noncomputable def div : FP → FP → FP
  | nan, _ => nan
  | _, nan => nan
  | fin a, fin b =>
    if b = 0 then (if a = 0 then nan else if 0 < a then inf else ninf)
    else fin (a / b)
  | fin _, inf => fin 0
  | fin _, ninf => fin 0
  | inf, fin b => if 0 ≤ b then inf else ninf
  | ninf, fin b => if 0 ≤ b then ninf else inf
  | inf, inf => nan
  | inf, ninf => nan
  | ninf, inf => nan
  | ninf, ninf => nan

noncomputable def sqrt : FP → FP
  | fin a => if a < 0 then nan else fin (Real.sqrt a)
  | inf => inf
  | ninf => nan
  | nan => nan

noncomputable def exp : FP → FP
  | fin a => fin (Real.exp a)
  | inf => inf
  | ninf => fin 0
  | nan => nan

/-- Modelled from the source: np.real(lambertw(w_arg, k=0)).  On the real
branch domain this is lambertW0; for finite arguments below -1/e scipy
returns a complex value whose real part is some finite real, and only that
finiteness is ever used, so the (arbitrary) finite value lambertW0 gives
there is adequate.  The infinite cases are never reached by any theorem. -/
noncomputable def lambertwRe : FP → FP
  | fin a => fin (lambertW0 a)
  | inf => inf
  | ninf => nan
  | nan => nan

def isnan : FP → Bool
  | nan => true
  | _ => false

noncomputable def fabs : FP → FP
  | fin a => fin |a|
  | inf => inf
  | ninf => inf
  | nan => nan

/-- python float comparison a < b (any comparison with nan is false). -/
noncomputable def lt : FP → FP → Bool
  | nan, _ => false
  | _, nan => false
  | fin a, fin b => decide (a < b)
  | fin _, inf => true
  | inf, fin _ => false
  | ninf, fin _ => true
  | fin _, ninf => false
  | inf, inf => false
  | ninf, ninf => false
  | ninf, inf => true
  | inf, ninf => false

lemma sub_fin_fin (a b : ℝ) : sub (fin a) (fin b) = fin (a - b) := by
  simp only [sub, neg, add, sub_eq_add_neg]

lemma div_fin_fin {b : ℝ} (a : ℝ) (hb : b ≠ 0) :
    div (fin a) (fin b) = fin (a / b) := by
  simp only [div]
  rw [if_neg hb]

lemma div_fin_zero_pos {a : ℝ} (ha : 0 < a) : div (fin a) (fin 0) = inf := by
  show (if (0:ℝ) = 0 then (if a = 0 then nan else if 0 < a then inf else ninf)
    else fin (a / 0)) = inf
  rw [if_pos rfl, if_neg (ne_of_gt ha), if_pos ha]

lemma div_inf_fin_nonneg {b : ℝ} (hb : 0 ≤ b) : div inf (fin b) = inf := by
  simp only [div]
  rw [if_pos hb]

lemma mul_fin_inf_pos {a : ℝ} (ha : 0 < a) : mul (fin a) inf = inf := by
  simp only [mul]
  rw [if_pos ha]

lemma mul_fin_inf_zero : mul (fin 0) inf = nan := by
  simp only [mul]
  rw [if_neg (lt_irrefl 0), if_neg (lt_irrefl 0)]

lemma mul_inf_fin_pos {b : ℝ} (hb : 0 < b) : mul inf (fin b) = inf := by
  simp only [mul]
  rw [if_pos hb]

lemma sqrt_fin_nonneg {a : ℝ} (ha : 0 ≤ a) : sqrt (fin a) = fin (Real.sqrt a) := by
  simp only [sqrt]
  rw [if_neg (not_lt.2 ha)]

end FP

/-! ## ThresholdSolver on the IEEE model (utils/optimal_threshold.py) -/

/-- calculate_optimal_threshold on the special-value model, operation by
operation as the source computes (the try/except never fires: none of the
numpy operations used raises). -/
noncomputable def fp_calculate_optimal_threshold
    (M rho lambda_val sigma kappa tau : FP) : FP × FP × FP × FP :=
  let psi := (FP.sqrt ((FP.fin 2).mul (rho.add lambda_val))).div sigma
  let C_M := kappa.div ((FP.fin 1).sub tau)
  let phi := (FP.fin 1).add (((psi.mul (rho.add lambda_val)).mul C_M).div M)
  let w_arg := (FP.exp phi.neg).neg
  let w_val := FP.lambertwRe w_arg
  let x_star := ((FP.fin 1).div psi).mul (phi.add w_val)
  (x_star, psi, phi, C_M)

/-- calculate_lambda on the special-value model. -/
noncomputable def fp_calculate_lambda (mu i0 Gamma pi : FP) : FP :=
  if (i0.mul Gamma).lt (FP.fin 100) then
    (mu.add (i0.div ((FP.exp (i0.mul Gamma)).sub (FP.fin 1)))).add pi
  else mu.add pi

/-- calculate_kappa on the special-value model. -/
noncomputable def fp_calculate_kappa (M points fixed_cost _tau : FP) : FP :=
  fixed_cost.add (points.mul M)

/-- calculate_square_root_approximation on the special-value model. -/
noncomputable def fp_calculate_square_root_approximation
    (M rho lambda_val sigma kappa tau : FP) : FP :=
  ((sigma.mul (FP.sqrt (kappa.div (M.mul ((FP.fin 1).sub tau))))).mul
    (FP.sqrt ((FP.fin 2).mul (rho.add lambda_val)))).neg

/-- calculate_npv_threshold on the special-value model. -/
noncomputable def fp_calculate_npv_threshold
    (M rho lambda_val kappa tau : FP) : FP :=
  let C_M := kappa.div ((FP.fin 1).sub tau)
  (((rho.add lambda_val).neg).mul C_M).div M

/-- Result dict of calculate_trigger_rate on the special-value model; the
python None is Option.none. -/
structure FpTriggerResult where
  optimal_threshold_bps : Option FP
  trigger_rate : Option FP
  trigger_rate_pct : Option FP
  x_star : FP
  sqrt_approx_bps : FP
  npv_threshold_bps : FP
  lambda_val : FP
  kappa : FP
  psi : FP
  phi : FP
  C_M : FP
  current_rate : FP

open Classical in
/-- calculate_trigger_rate on the special-value model.  x_star_bp is None
exactly when x_star is NaN; trigger_rate is only computed when x_star_bp is
present; trigger_rate_pct follows python truthiness (None when trigger_rate
is None or equal to 0.0). -/
noncomputable def fp_calculate_trigger_rate
    (current_rate remaining_balance remaining_years discount_rate volatility
      tax_rate fixed_cost points prob_moving inflation_rate : FP) :
    FpTriggerResult :=
  let current_rate := if (FP.fin 1).lt current_rate then
    current_rate.div (FP.fin 100) else current_rate
  let lambda_val := fp_calculate_lambda prob_moving current_rate
    remaining_years inflation_rate
  let kappa := fp_calculate_kappa remaining_balance points fixed_cost tax_rate
  let r := fp_calculate_optimal_threshold remaining_balance discount_rate
    lambda_val volatility kappa tax_rate
  let x_star := r.1
  let x_star_sqrt := fp_calculate_square_root_approximation remaining_balance
    discount_rate lambda_val volatility kappa tax_rate
  let x_npv := fp_calculate_npv_threshold remaining_balance discount_rate
    lambda_val kappa tax_rate
  let x_star_bp := if x_star.isnan then none
    else some ((x_star.neg).mul (FP.fin 10000))
  let trigger_rate := if x_star_bp.isSome then
    some (current_rate.sub x_star.fabs) else none
  let trigger_rate_pct := match trigger_rate with
    | some t => if t = FP.fin 0 then none else some (t.mul (FP.fin 100))
    | none => none
  { optimal_threshold_bps := x_star_bp
    trigger_rate := trigger_rate
    trigger_rate_pct := trigger_rate_pct
    x_star := x_star
    sqrt_approx_bps := (x_star_sqrt.neg).mul (FP.fin 10000)
    npv_threshold_bps := (x_npv.neg).mul (FP.fin 10000)
    lambda_val := lambda_val
    kappa := kappa
    psi := r.2.1
    phi := r.2.2.1
    C_M := r.2.2.2
    current_rate := current_rate }

/-- Shared trace: with sigma = 0 and otherwise valid parameters, the solver
produces psi = inf, phi = inf, w = 0, and x_star = 0 * inf = NaN. -/
lemma fp_opt_sigma_zero (m rho lam k t : ℝ)
    (hm : 0 < m) (hrl : 0 < rho + lam) (hk : 0 < k) (ht : t < 1) :
    (fp_calculate_optimal_threshold (FP.fin m) (FP.fin rho) (FP.fin lam)
      (FP.fin 0) (FP.fin k) (FP.fin t)).1 = FP.nan := by
  have hadd : (FP.fin rho).add (FP.fin lam) = FP.fin (rho + lam) := rfl
  have h2 : (FP.fin 2).mul (FP.fin (rho + lam)) = FP.fin (2 * (rho + lam)) := rfl
  have hsq : FP.sqrt (FP.fin (2 * (rho + lam))) =
      FP.fin (Real.sqrt (2 * (rho + lam))) := FP.sqrt_fin_nonneg (by positivity)
  have hpsi : FP.div (FP.fin (Real.sqrt (2 * (rho + lam)))) (FP.fin 0) =
      FP.inf := FP.div_fin_zero_pos (Real.sqrt_pos.2 (by linarith))
  have hsub : FP.sub (FP.fin 1) (FP.fin t) = FP.fin (1 - t) := FP.sub_fin_fin 1 t
  have hCM : FP.div (FP.fin k) (FP.fin (1 - t)) = FP.fin (k / (1 - t)) :=
    FP.div_fin_fin k (by linarith)
  have hc : 0 < k / (1 - t) := div_pos hk (by linarith)
  have hm1 : FP.mul FP.inf (FP.fin (rho + lam)) = FP.inf :=
    FP.mul_inf_fin_pos hrl
  have hm2 : FP.mul FP.inf (FP.fin (k / (1 - t))) = FP.inf :=
    FP.mul_inf_fin_pos hc
  have hd : FP.div FP.inf (FP.fin m) = FP.inf := FP.div_inf_fin_nonneg hm.le
  have hphi : FP.add (FP.fin 1) FP.inf = FP.inf := rfl
  have hneg : FP.neg FP.inf = FP.ninf := rfl
  have hexp : FP.exp FP.ninf = FP.fin 0 := rfl
  have hneg0 : FP.neg (FP.fin 0) = FP.fin 0 := by
    show FP.fin (-0) = FP.fin 0
    norm_num
  have hw : FP.lambertwRe (FP.fin 0) = FP.fin 0 := by
    show FP.fin (lambertW0 0) = FP.fin 0
    rw [lambertW0_zero]
  have hdiv1 : FP.div (FP.fin 1) FP.inf = FP.fin 0 := rfl
  have haddw : FP.add FP.inf (FP.fin 0) = FP.inf := rfl
  simp only [fp_calculate_optimal_threshold]
  rw [hadd, h2, hsq, hpsi, hsub, hCM, hm1, hm2, hd, hphi, hneg, hexp, hneg0,
    hw, haddw, hdiv1]
  exact FP.mul_fin_inf_zero

/-- Shared trace: with M = 0 and otherwise valid parameters, the division
by M produces phi = inf and the solver returns x_star = +inf (not NaN). -/
lemma fp_opt_M_zero (rho lam s k t : ℝ)
    (hs : 0 < s) (hrl : 0 < rho + lam) (hk : 0 < k) (ht : t < 1) :
    (fp_calculate_optimal_threshold (FP.fin 0) (FP.fin rho) (FP.fin lam)
      (FP.fin s) (FP.fin k) (FP.fin t)).1 = FP.inf := by
  have hadd : (FP.fin rho).add (FP.fin lam) = FP.fin (rho + lam) := rfl
  have h2 : (FP.fin 2).mul (FP.fin (rho + lam)) = FP.fin (2 * (rho + lam)) := rfl
  have hsq : FP.sqrt (FP.fin (2 * (rho + lam))) =
      FP.fin (Real.sqrt (2 * (rho + lam))) := FP.sqrt_fin_nonneg (by positivity)
  have hp : 0 < Real.sqrt (2 * (rho + lam)) / s :=
    div_pos (Real.sqrt_pos.2 (by linarith)) hs
  have hpsi : FP.div (FP.fin (Real.sqrt (2 * (rho + lam)))) (FP.fin s) =
      FP.fin (Real.sqrt (2 * (rho + lam)) / s) := FP.div_fin_fin _ (ne_of_gt hs)
  have hsub : FP.sub (FP.fin 1) (FP.fin t) = FP.fin (1 - t) := FP.sub_fin_fin 1 t
  have hCM : FP.div (FP.fin k) (FP.fin (1 - t)) = FP.fin (k / (1 - t)) :=
    FP.div_fin_fin k (by linarith)
  have hc : 0 < k / (1 - t) := div_pos hk (by linarith)
  have hm1 : FP.mul (FP.fin (Real.sqrt (2 * (rho + lam)) / s))
      (FP.fin (rho + lam)) =
      FP.fin (Real.sqrt (2 * (rho + lam)) / s * (rho + lam)) := rfl
  have hm2 : FP.mul (FP.fin (Real.sqrt (2 * (rho + lam)) / s * (rho + lam)))
      (FP.fin (k / (1 - t))) =
      FP.fin (Real.sqrt (2 * (rho + lam)) / s * (rho + lam) * (k / (1 - t))) :=
    rfl
  have hq : 0 < Real.sqrt (2 * (rho + lam)) / s * (rho + lam) * (k / (1 - t)) :=
    mul_pos (mul_pos hp hrl) hc
  have hd : FP.div
      (FP.fin (Real.sqrt (2 * (rho + lam)) / s * (rho + lam) * (k / (1 - t))))
      (FP.fin 0) = FP.inf := FP.div_fin_zero_pos hq
  have hphi : FP.add (FP.fin 1) FP.inf = FP.inf := rfl
  have hneg : FP.neg FP.inf = FP.ninf := rfl
  have hexp : FP.exp FP.ninf = FP.fin 0 := rfl
  have hneg0 : FP.neg (FP.fin 0) = FP.fin 0 := by
    show FP.fin (-0) = FP.fin 0
    norm_num
  have hw : FP.lambertwRe (FP.fin 0) = FP.fin 0 := by
    show FP.fin (lambertW0 0) = FP.fin 0
    rw [lambertW0_zero]
  have hdiv1 : FP.div (FP.fin 1) (FP.fin (Real.sqrt (2 * (rho + lam)) / s)) =
      FP.fin (1 / (Real.sqrt (2 * (rho + lam)) / s)) :=
    FP.div_fin_fin 1 (ne_of_gt hp)
  have haddw : FP.add FP.inf (FP.fin 0) = FP.inf := rfl
  simp only [fp_calculate_optimal_threshold]
  rw [hadd, h2, hsq, hpsi, hsub, hCM, hm1, hm2, hd, hphi, hneg, hexp, hneg0,
    hw, haddw, hdiv1]
  exact FP.mul_fin_inf_pos (by positivity)

/-- On finite inputs with 0 < i0 * Gamma < 100, the IEEE-model lambda agrees
with the real-model lambda. -/
lemma fp_lambda_eq (mu cr y pi : ℝ) (h1 : cr * y < 100) (h2 : 0 < cr * y) :
    fp_calculate_lambda (FP.fin mu) (FP.fin cr) (FP.fin y) (FP.fin pi) =
      FP.fin (calculate_lambda mu cr y pi) := by
  have hcond : FP.lt ((FP.fin cr).mul (FP.fin y)) (FP.fin 100) = true := by
    show decide (cr * y < 100) = true
    exact decide_eq_true h1
  have hd : (1:ℝ) < Real.exp (cr * y) := Real.one_lt_exp_iff.2 h2
  have hden : Real.exp (cr * y) - 1 ≠ 0 := ne_of_gt (by linarith)
  simp only [fp_calculate_lambda]
  rw [if_pos hcond]
  have e1 : FP.exp ((FP.fin cr).mul (FP.fin y)) = FP.fin (Real.exp (cr * y)) :=
    rfl
  have e2 : FP.sub (FP.fin (Real.exp (cr * y))) (FP.fin 1) =
      FP.fin (Real.exp (cr * y) - 1) := FP.sub_fin_fin _ _
  have e3 : FP.div (FP.fin cr) (FP.fin (Real.exp (cr * y) - 1)) =
      FP.fin (cr / (Real.exp (cr * y) - 1)) := FP.div_fin_fin cr hden
  rw [e1, e2, e3]
  show FP.fin (mu + cr / (Real.exp (cr * y) - 1) + pi) =
    FP.fin (calculate_lambda mu cr y pi)
  rw [calculate_lambda, if_pos h1]

/-- The IEEE-model kappa agrees with the real-model kappa on finite inputs. -/
lemma fp_kappa_eq (m pts f t : ℝ) :
    fp_calculate_kappa (FP.fin m) (FP.fin pts) (FP.fin f) (FP.fin t) =
      FP.fin (calculate_kappa m pts f t) := rfl

/-- On finite inputs with M and 1 - tau nonzero, the IEEE-model NPV threshold
agrees with the real-model NPV threshold. -/
lemma fp_npv_eq (m rho lam k t : ℝ) (hm : m ≠ 0) (ht : (1:ℝ) - t ≠ 0) :
    fp_calculate_npv_threshold (FP.fin m) (FP.fin rho) (FP.fin lam)
      (FP.fin k) (FP.fin t) =
      FP.fin (calculate_npv_threshold m rho lam k t) := by
  simp only [fp_calculate_npv_threshold]
  rw [FP.sub_fin_fin, FP.div_fin_fin k ht]
  have e1 : ((FP.fin rho).add (FP.fin lam)).neg = FP.fin (-(rho + lam)) := rfl
  rw [e1]
  have e2 : FP.mul (FP.fin (-(rho + lam))) (FP.fin (k / (1 - t))) =
      FP.fin (-(rho + lam) * (k / (1 - t))) := rfl
  rw [e2, FP.div_fin_fin _ hm]
  rfl

/-- With sigma = 0 and otherwise valid parameters the square-root
approximation evaluates to exactly 0 (a valid, non-NaN value). -/
lemma fp_sqrt_approx_sigma_zero (m rho lam k t : ℝ)
    (hm : 0 < m) (hk : 0 ≤ k) (ht : t < 1) (hrl : 0 ≤ rho + lam) :
    fp_calculate_square_root_approximation (FP.fin m) (FP.fin rho)
      (FP.fin lam) (FP.fin 0) (FP.fin k) (FP.fin t) = FP.fin 0 := by
  have hmt : m * (1 - t) ≠ 0 := mul_ne_zero (ne_of_gt hm) (by linarith)
  simp only [fp_calculate_square_root_approximation]
  rw [FP.sub_fin_fin]
  have e1 : FP.mul (FP.fin m) (FP.fin (1 - t)) = FP.fin (m * (1 - t)) := rfl
  rw [e1, FP.div_fin_fin k hmt]
  have hnn : 0 ≤ k / (m * (1 - t)) := by
    apply div_nonneg hk
    have : 0 < 1 - t := by linarith
    positivity
  rw [FP.sqrt_fin_nonneg hnn]
  have e2 : FP.mul (FP.fin 0) (FP.fin (Real.sqrt (k / (m * (1 - t))))) =
      FP.fin 0 := by
    show FP.fin (0 * Real.sqrt (k / (m * (1 - t)))) = FP.fin 0
    norm_num
  rw [e2]
  have e3 : (FP.fin 2).mul ((FP.fin rho).add (FP.fin lam)) =
      FP.fin (2 * (rho + lam)) := rfl
  rw [e3, FP.sqrt_fin_nonneg (by linarith)]
  have e4 : FP.mul (FP.fin 0) (FP.fin (Real.sqrt (2 * (rho + lam)))) =
      FP.fin 0 := by
    show FP.fin (0 * Real.sqrt (2 * (rho + lam))) = FP.fin 0
    norm_num
  rw [e4]
  show FP.fin (-0) = FP.fin 0
  norm_num

/-- Shared trace: with tau > 1 (so that C_M < 0 and phi < 1, pushing the
Lambert argument -exp(-phi) below -1/e, where no real branch value exists)
and otherwise valid finite parameters, every operation stays finite: the
solver returns the finite real part of the complex Lambert value, not NaN. -/
lemma fp_opt_fin_tau_gt_one (m rho lam s k t : ℝ)
    (hm : 0 < m) (hs : 0 < s) (hrl : 0 < rho + lam) (hk : 0 < k)
    (ht : 1 < t) :
    ∃ phiv v : ℝ, phiv < 1 ∧
      (fp_calculate_optimal_threshold (FP.fin m) (FP.fin rho) (FP.fin lam)
        (FP.fin s) (FP.fin k) (FP.fin t)).2.2.1 = FP.fin phiv ∧
      (fp_calculate_optimal_threshold (FP.fin m) (FP.fin rho) (FP.fin lam)
        (FP.fin s) (FP.fin k) (FP.fin t)).1 = FP.fin v := by
  have hadd : (FP.fin rho).add (FP.fin lam) = FP.fin (rho + lam) := rfl
  have h2 : (FP.fin 2).mul (FP.fin (rho + lam)) = FP.fin (2 * (rho + lam)) :=
    rfl
  have hsq : FP.sqrt (FP.fin (2 * (rho + lam))) =
      FP.fin (Real.sqrt (2 * (rho + lam))) := FP.sqrt_fin_nonneg (by positivity)
  have hp : 0 < Real.sqrt (2 * (rho + lam)) / s :=
    div_pos (Real.sqrt_pos.2 (by linarith)) hs
  have hpsi : FP.div (FP.fin (Real.sqrt (2 * (rho + lam)))) (FP.fin s) =
      FP.fin (Real.sqrt (2 * (rho + lam)) / s) := FP.div_fin_fin _ (ne_of_gt hs)
  have ht0 : (1:ℝ) - t < 0 := by linarith
  have hsub : FP.sub (FP.fin 1) (FP.fin t) = FP.fin (1 - t) :=
    FP.sub_fin_fin 1 t
  have hCM : FP.div (FP.fin k) (FP.fin (1 - t)) = FP.fin (k / (1 - t)) :=
    FP.div_fin_fin k (ne_of_lt ht0)
  have hm1 : FP.mul (FP.fin (Real.sqrt (2 * (rho + lam)) / s))
      (FP.fin (rho + lam)) =
      FP.fin (Real.sqrt (2 * (rho + lam)) / s * (rho + lam)) := rfl
  have hm2 : FP.mul (FP.fin (Real.sqrt (2 * (rho + lam)) / s * (rho + lam)))
      (FP.fin (k / (1 - t))) =
      FP.fin (Real.sqrt (2 * (rho + lam)) / s * (rho + lam) * (k / (1 - t))) :=
    rfl
  have hd : FP.div
      (FP.fin (Real.sqrt (2 * (rho + lam)) / s * (rho + lam) * (k / (1 - t))))
      (FP.fin m) =
      FP.fin (Real.sqrt (2 * (rho + lam)) / s * (rho + lam) * (k / (1 - t))
        / m) := FP.div_fin_fin _ (ne_of_gt hm)
  have hq : Real.sqrt (2 * (rho + lam)) / s * (rho + lam) * (k / (1 - t))
      / m < 0 := by
    apply div_neg_of_neg_of_pos _ hm
    exact mul_neg_of_pos_of_neg (mul_pos hp hrl) (div_neg_of_pos_of_neg hk ht0)
  have hdiv1 : FP.div (FP.fin 1) (FP.fin (Real.sqrt (2 * (rho + lam)) / s)) =
      FP.fin (1 / (Real.sqrt (2 * (rho + lam)) / s)) :=
    FP.div_fin_fin 1 (ne_of_gt hp)
  refine ⟨1 + Real.sqrt (2 * (rho + lam)) / s * (rho + lam) * (k / (1 - t))
      / m,
    1 / (Real.sqrt (2 * (rho + lam)) / s) *
      ((1 + Real.sqrt (2 * (rho + lam)) / s * (rho + lam) * (k / (1 - t)) / m)
        + lambertW0 (-Real.exp
          (-(1 + Real.sqrt (2 * (rho + lam)) / s * (rho + lam) *
            (k / (1 - t)) / m)))),
    by linarith, ?_, ?_⟩
  · simp only [fp_calculate_optimal_threshold]
    rw [hadd, h2, hsq, hpsi, hsub, hCM, hm1, hm2, hd]
    rfl
  · simp only [fp_calculate_optimal_threshold]
    rw [hadd, h2, hsq, hpsi, hsub, hCM, hm1, hm2, hd, hdiv1]
    rfl

/-! ## Claim C4 -/

/-- Counterexample for C4 as stated: the claim says M = 0 makes
calculate_optimal_threshold return NaN for x_star, but at M = 0 (with the
other parameters valid: rho = 1/20, lambda = 13/100, sigma = 109/10000,
kappa = 6000, tau = 7/25) the division by M yields phi = +inf and the
solver returns x_star = +inf, which is not NaN. -/
theorem C4_counterexample :
    (fp_calculate_optimal_threshold (FP.fin 0) (FP.fin (5/100))
      (FP.fin (13/100)) (FP.fin (109/10000)) (FP.fin 6000)
      (FP.fin (28/100))).1 = FP.inf ∧ FP.inf ≠ FP.nan := by
  constructor
  · exact fp_opt_M_zero (5/100) (13/100) (109/10000) 6000 (28/100)
      (by norm_num) (by norm_num) (by norm_num) (by norm_num)
  · intro h
    exact FP.noConfusion h

/-- Claim C4 (amended): on out-of-domain inputs the solver signals failure
with a special value instead of raising: sigma = 0 yields x_star = NaN
(via 0 * inf); M = 0 yields x_star = +inf (not NaN as the claim stated);
a Lambert argument pushed outside [-1/e, 0) by tau > 1 (phi < 1, no real
branch value) yields the finite real part of the complex Lambert value,
again not NaN; and in calculate_trigger_rate with sigma = 0, x_star is NaN
and the bps/trigger fields are None, but the other result-bundle fields
(sqrt_approx_bps, npv_threshold_bps, lambda, kappa) are still computed and
returned as valid finite values agreeing with the real-model formulas. -/
theorem C4_amended_out_of_domain_behavior :
    (∀ m rho lam k t : ℝ, 0 < m → 0 < rho + lam → 0 < k → t < 1 →
      (fp_calculate_optimal_threshold (FP.fin m) (FP.fin rho) (FP.fin lam)
        (FP.fin 0) (FP.fin k) (FP.fin t)).1 = FP.nan) ∧
    (∀ rho lam s k t : ℝ, 0 < s → 0 < rho + lam → 0 < k → t < 1 →
      (fp_calculate_optimal_threshold (FP.fin 0) (FP.fin rho) (FP.fin lam)
        (FP.fin s) (FP.fin k) (FP.fin t)).1 = FP.inf) ∧
    (∀ m rho lam s k t : ℝ, 0 < m → 0 < s → 0 < rho + lam → 0 < k → 1 < t →
      ∃ phiv v : ℝ, phiv < 1 ∧
        (fp_calculate_optimal_threshold (FP.fin m) (FP.fin rho) (FP.fin lam)
          (FP.fin s) (FP.fin k) (FP.fin t)).2.2.1 = FP.fin phiv ∧
        (fp_calculate_optimal_threshold (FP.fin m) (FP.fin rho) (FP.fin lam)
          (FP.fin s) (FP.fin k) (FP.fin t)).1 = FP.fin v) ∧
    (∀ cr m y rho t f pts mu pi : ℝ,
      0 < cr → cr ≤ 1 → 0 < y → cr * y < 100 → 0 < m → t < 1 →
      0 < calculate_kappa m pts f t →
      0 < rho + calculate_lambda mu cr y pi →
      (fp_calculate_trigger_rate (FP.fin cr) (FP.fin m) (FP.fin y)
        (FP.fin rho) (FP.fin 0) (FP.fin t) (FP.fin f) (FP.fin pts)
        (FP.fin mu) (FP.fin pi)).x_star = FP.nan ∧
      (fp_calculate_trigger_rate (FP.fin cr) (FP.fin m) (FP.fin y)
        (FP.fin rho) (FP.fin 0) (FP.fin t) (FP.fin f) (FP.fin pts)
        (FP.fin mu) (FP.fin pi)).optimal_threshold_bps = none ∧
      (fp_calculate_trigger_rate (FP.fin cr) (FP.fin m) (FP.fin y)
        (FP.fin rho) (FP.fin 0) (FP.fin t) (FP.fin f) (FP.fin pts)
        (FP.fin mu) (FP.fin pi)).trigger_rate = none ∧
      (fp_calculate_trigger_rate (FP.fin cr) (FP.fin m) (FP.fin y)
        (FP.fin rho) (FP.fin 0) (FP.fin t) (FP.fin f) (FP.fin pts)
        (FP.fin mu) (FP.fin pi)).sqrt_approx_bps = FP.fin 0 ∧
      (fp_calculate_trigger_rate (FP.fin cr) (FP.fin m) (FP.fin y)
        (FP.fin rho) (FP.fin 0) (FP.fin t) (FP.fin f) (FP.fin pts)
        (FP.fin mu) (FP.fin pi)).npv_threshold_bps =
        FP.fin (-calculate_npv_threshold m rho (calculate_lambda mu cr y pi)
          (calculate_kappa m pts f t) t * 10000) ∧
      (fp_calculate_trigger_rate (FP.fin cr) (FP.fin m) (FP.fin y)
        (FP.fin rho) (FP.fin 0) (FP.fin t) (FP.fin f) (FP.fin pts)
        (FP.fin mu) (FP.fin pi)).lambda_val =
        FP.fin (calculate_lambda mu cr y pi) ∧
      (fp_calculate_trigger_rate (FP.fin cr) (FP.fin m) (FP.fin y)
        (FP.fin rho) (FP.fin 0) (FP.fin t) (FP.fin f) (FP.fin pts)
        (FP.fin mu) (FP.fin pi)).kappa =
        FP.fin (calculate_kappa m pts f t)) := by
  refine ⟨?_, ?_, ?_, ?_⟩
  · intro m rho lam k t hm hrl hk ht
    exact fp_opt_sigma_zero m rho lam k t hm hrl hk ht
  · intro rho lam s k t hs hrl hk ht
    exact fp_opt_M_zero rho lam s k t hs hrl hk ht
  · intro m rho lam s k t hm hs hrl hk ht
    exact fp_opt_fin_tau_gt_one m rho lam s k t hm hs hrl hk ht
  · intro cr m y rho t f pts mu pi hcr0 hcr1 hy hcy hm ht hκ hrl
    have hnorm : FP.lt (FP.fin 1) (FP.fin cr) = false := by
      show decide ((1:ℝ) < cr) = false
      exact decide_eq_false (not_lt.2 hcr1)
    have hlameq := fp_lambda_eq mu cr y pi hcy (mul_pos hcr0 hy)
    have hkape := fp_kappa_eq m pts f t
    have hx := fp_opt_sigma_zero m rho (calculate_lambda mu cr y pi)
      (calculate_kappa m pts f t) t hm hrl hκ ht
    have hsq := fp_sqrt_approx_sigma_zero m rho (calculate_lambda mu cr y pi)
      (calculate_kappa m pts f t) t hm hκ.le ht hrl.le
    have hnpv := fp_npv_eq m rho (calculate_lambda mu cr y pi)
      (calculate_kappa m pts f t) t (ne_of_gt hm) (by linarith)
    have hnegm : FP.mul (FP.neg (FP.fin 0)) (FP.fin 10000) = FP.fin 0 := by
      show FP.fin (-0 * 10000) = FP.fin 0
      norm_num
    simp only [fp_calculate_trigger_rate, hnorm, Bool.false_eq_true,
      if_false, hlameq, hkape, hx, hsq, hnpv, FP.isnan, if_true,
      Option.isSome_none, hnegm]
    refine ⟨?_, ?_, ?_, ?_, ?_, ?_, ?_⟩ <;> trivial

/-- Witness for C4 (amended): all three parts instantiated, at
(M, rho, lambda, kappa, tau) = (400000, 1/20, 13/100, 6000, 7/25) for the
solver parts and at the default trigger-rate inputs with current_rate =
13/200 and volatility 0 for the bundle part. -/
theorem C4_amended_out_of_domain_behavior_witness :
    (fp_calculate_optimal_threshold (FP.fin 400000) (FP.fin (1/20))
      (FP.fin (13/100)) (FP.fin 0) (FP.fin 6000) (FP.fin (7/25))).1 =
      FP.nan ∧
    (fp_calculate_optimal_threshold (FP.fin 0) (FP.fin (1/20))
      (FP.fin (13/100)) (FP.fin (109/10000)) (FP.fin 6000)
      (FP.fin (7/25))).1 = FP.inf ∧
    (∃ phiv v : ℝ, phiv < 1 ∧
      (fp_calculate_optimal_threshold (FP.fin 400000) (FP.fin (1/20))
        (FP.fin (13/100)) (FP.fin (109/10000)) (FP.fin 6000)
        (FP.fin 2)).2.2.1 = FP.fin phiv ∧
      (fp_calculate_optimal_threshold (FP.fin 400000) (FP.fin (1/20))
        (FP.fin (13/100)) (FP.fin (109/10000)) (FP.fin 6000)
        (FP.fin 2)).1 = FP.fin v) ∧
    (fp_calculate_trigger_rate (FP.fin (13/200)) (FP.fin 400000) (FP.fin 25)
      (FP.fin (1/20)) (FP.fin 0) (FP.fin (7/25)) (FP.fin 2000)
      (FP.fin (1/100)) (FP.fin (1/10)) (FP.fin (3/100))).x_star = FP.nan ∧
    (fp_calculate_trigger_rate (FP.fin (13/200)) (FP.fin 400000) (FP.fin 25)
      (FP.fin (1/20)) (FP.fin 0) (FP.fin (7/25)) (FP.fin 2000)
      (FP.fin (1/100)) (FP.fin (1/10)) (FP.fin (3/100))).lambda_val =
      FP.fin (calculate_lambda (1/10) (13/200) 25 (3/100)) ∧
    (fp_calculate_trigger_rate (FP.fin (13/200)) (FP.fin 400000) (FP.fin 25)
      (FP.fin (1/20)) (FP.fin 0) (FP.fin (7/25)) (FP.fin 2000)
      (FP.fin (1/100)) (FP.fin (1/10)) (FP.fin (3/100))).kappa =
      FP.fin (calculate_kappa 400000 (1/100) 2000 (7/25)) := by
  have hlam : 0 < (1:ℝ)/20 + calculate_lambda (1/10) (13/200) 25 (3/100) := by
    rw [calculate_lambda, if_pos (by norm_num)]
    have h1 : (1:ℝ) < Real.exp ((13/200 : ℝ) * 25) :=
      Real.one_lt_exp_iff.2 (by norm_num)
    have h2 : 0 < (13/200 : ℝ) / (Real.exp ((13/200 : ℝ) * 25) - 1) := by
      apply div_pos (by norm_num)
      linarith
    linarith
  have h3 := (C4_amended_out_of_domain_behavior.2.2.2) (13/200) 400000 25
    (1/20) (7/25) 2000 (1/100) (1/10) (3/100)
    (by norm_num) (by norm_num) (by norm_num) (by norm_num) (by norm_num)
    (by norm_num) (by rw [calculate_kappa]; norm_num) hlam
  exact ⟨C4_amended_out_of_domain_behavior.1 400000 (1/20) (13/100) 6000
      (7/25) (by norm_num) (by norm_num) (by norm_num) (by norm_num),
    C4_amended_out_of_domain_behavior.2.1 (1/20) (13/100) (109/10000) 6000
      (7/25) (by norm_num) (by norm_num) (by norm_num) (by norm_num),
    C4_amended_out_of_domain_behavior.2.2.1 400000 (1/20) (13/100)
      (109/10000) 6000 2 (by norm_num) (by norm_num) (by norm_num)
      (by norm_num) (by norm_num),
    h3.1, h3.2.2.2.2.2.1, h3.2.2.2.2.2.2⟩
